import Mathlib

/-!
# A fixed-arena block allocator (`malloc.c`): embedding and checked properties

The allocator keeps its block headers *inside* the memory it hands out, so the
embedding uses one flat, byte-addressable, little-endian memory for headers and
payload alike.  Every header access of the C code is a read or a write of that
memory at `block + offset`; two headers that overlap in memory therefore
overlap in the model too, and a write through a header pointer that lies
outside the arena lands in the same flat memory.

* `size_t` and pointers are 64 bits wide: every sum, difference and product is
  reduced modulo `2 ^ 64`; the null pointer is the address `0`.
* `sizeof(block_header_t) = 32` with the LP64 layout
  `size @ 0 (8 bytes)`, `is_free @ 8 (int, 4 bytes)`, `next @ 16`, `prev @ 24`.
* the global `malloc_state` is a record next to the memory (it is not stored
  in the byte memory).
* `find_free_block` contains the only loop; it is given an explicit iteration
  budget and answers `none` when the budget is used up before the loop exits.
* `malloc`, `calloc` and `realloc` return `none` where the C code returns NULL
  and `some p` where it returns a pointer computed from a block.
-/

namespace Lab9

/-! ## Byte memory -/

/-- Width of `size_t` and of pointers. -/
def WORD : Nat := 2 ^ 64

/-- Byte memory: an association list from address to byte; an address that is
not listed holds `0` (static storage and fresh `sbrk` pages are zero). -/
abbrev Mem := List (Nat × Nat)

/-- Address arithmetic `(char*)p + i`, modulo the pointer width. -/
def padd (p i : Nat) : Nat := (p + i) % WORD

/-- Unsigned subtraction on `size_t`. -/
def wsub (a b : Nat) : Nat := (a + (WORD - b % WORD)) % WORD

/-- Read one byte. -/
def rd8 : Mem → Nat → Nat
  | [], _ => 0
  | (k, v) :: m, a => if k = a then v % 256 else rd8 m a

/-- Write one byte. -/
def wr8 : Mem → Nat → Nat → Mem
  | [], a, v => [(a, v % 256)]
  | (k, x) :: m, a, v => if k = a then (k, v % 256) :: m else (k, x) :: wr8 m a v

/-- Read an `n`-byte little-endian unsigned integer at address `a`: byte `i`
of it is the byte at `a + i`. -/
def rdN : Nat → Mem → Nat → Nat
  | 0, _, _ => 0
  | n + 1, m, a => rdN n m a + 256 ^ n * rd8 m (padd a n)

/-- Write the low `n` bytes of `v`, little-endian, at address `a`. -/
def wrN : Nat → Mem → Nat → Nat → Mem
  | 0, m, _, _ => m
  | n + 1, m, a, v => wr8 (wrN n m a v) (padd a n) (v / 256 ^ n)

/-- The libc routine `memset(p, c, n)`: bytes `p .. p + n - 1` in rising order. -/
def memset : Mem → Nat → Nat → Nat → Mem
  | m, _, _, 0 => m
  | m, p, c, n + 1 => wr8 (memset m p c n) (padd p n) c

/-- The libc routine `memcpy(dst, src, n)` as a forward byte-by-byte copy:
byte `i` is copied after bytes `0 .. i - 1`, from the memory they left. -/
def memcpy : Mem → Nat → Nat → Nat → Mem
  | m, _, _, 0 => m
  | m, dst, src, n + 1 =>
    let m := memcpy m dst src n
    wr8 m (padd dst n) (rd8 m (padd src n))

/-! ## `malloc.h`: the header and the global state -/

/-- The constant `sizeof(block_header_t)`. -/
def HEADER_SIZE : Nat := 32

/-- The macro `MIN_BLOCK_SIZE`, `sizeof(block_header_t) + 8`. -/
def MIN_BLOCK_SIZE : Nat := HEADER_SIZE + 8

/-- The macro `HEAP_SIZE`, `1024 * 1024`. -/
def HEAP_SIZE : Nat := 1024 * 1024

/-- The null pointer. -/
def NULL : Nat := 0

/-- The value `(void*)-1` that a failing `sbrk` returns. -/
def SBRK_FAILED : Nat := WORD - 1

/-- Field `block->size`. -/
def get_size (m : Mem) (block : Nat) : Nat := rdN 8 m block
/-- Field `block->is_free` (an `int`). -/
def get_is_free (m : Mem) (block : Nat) : Nat := rdN 4 m (padd block 8)
/-- Field `block->next`. -/
def get_next (m : Mem) (block : Nat) : Nat := rdN 8 m (padd block 16)
/-- Field `block->prev`. -/
def get_prev (m : Mem) (block : Nat) : Nat := rdN 8 m (padd block 24)

/-- Assignment `block->size = v`. -/
def set_size (m : Mem) (block v : Nat) : Mem := wrN 8 m block v
/-- Assignment `block->is_free = v`. -/
def set_is_free (m : Mem) (block v : Nat) : Mem := wrN 4 m (padd block 8) v
/-- Assignment `block->next = v`. -/
def set_next (m : Mem) (block v : Nat) : Mem := wrN 8 m (padd block 16) v
/-- Assignment `block->prev = v`. -/
def set_prev (m : Mem) (block v : Nat) : Mem := wrN 8 m (padd block 24) v

/-- The record `malloc_state_t`. -/
structure malloc_state_t where
  heap_start : Nat
  heap_size : Nat
  free_list : Nat
  initialized : Nat
  deriving DecidableEq, Repr

/-- Everything the allocator reads or writes: the byte memory, the global
`malloc_state`, and `region`, the address of the backing store the platform
hands over (`static_heap` in the `__linux__` build, the result of
`sbrk(HEAP_SIZE)` otherwise, which is `(void*)-1` when `sbrk` fails). -/
structure State where
  mem : Mem
  malloc_state : malloc_state_t
  region : Nat
  deriving DecidableEq, Repr

/-! ## `malloc.c` -/

/-- The function `malloc_init`.  In the `__linux__` build `region` is the
address of a static array, which is never `(void*)-1`, so the failure test of
the `sbrk` build is never taken there. -/
def malloc_init (s : State) : State :=
  if s.malloc_state.initialized ≠ 0 then s
  else
    if s.region = SBRK_FAILED then
      { s with malloc_state := { s.malloc_state with heap_start := s.region } }
    else
      let initial_block := s.region
      let m := set_size s.mem initial_block HEAP_SIZE
      let m := set_is_free m initial_block 1
      let m := set_next m initial_block NULL
      let m := set_prev m initial_block NULL
      { s with
        mem := m
        malloc_state :=
          { heap_start := s.region, heap_size := HEAP_SIZE,
            free_list := initial_block, initialized := 1 } }

/-- The loop of `find_free_block`, started at `current`, allowed to examine at
most `fuel` blocks; `none` when the budget runs out before the loop exits. -/
def find_free_block_from (m : Mem) (size : Nat) : Nat → Nat → Option Nat
  | 0, current => if current = NULL then some NULL else none
  | fuel + 1, current =>
    if current = NULL then some NULL
    else if get_is_free m current ≠ 0 ∧ size ≤ get_size m current then some current
    else find_free_block_from m size fuel (get_next m current)

/-- The function `find_free_block`. -/
def find_free_block (fuel : Nat) (s : State) (size : Nat) : Option Nat :=
  find_free_block_from s.mem size fuel s.malloc_state.free_list

/-- The function `split_block` (its return value is always `block`). -/
def split_block (m : Mem) (block size : Nat) : Mem :=
  if get_size m block < (size + MIN_BLOCK_SIZE) % WORD then m
  else
    let new_block := padd block size
    let m := set_size m new_block (wsub (get_size m block) size)
    let m := set_is_free m new_block 1
    let m := set_next m new_block (get_next m block)
    let m := set_prev m new_block block
    let m := set_size m block size
    let m := set_next m block new_block
    if get_next m new_block ≠ NULL then set_prev m (get_next m new_block) new_block
    else m

/-- The function `merge_blocks`. -/
def merge_blocks (m : Mem) (block : Nat) : Mem :=
  let m :=
    if get_next m block ≠ NULL ∧ get_is_free m (get_next m block) ≠ 0 then
      let m := set_size m block ((get_size m block + get_size m (get_next m block)) % WORD)
      let m := set_next m block (get_next m (get_next m block))
      if get_next m block ≠ NULL then set_prev m (get_next m block) block else m
    else m
  if get_prev m block ≠ NULL ∧ get_is_free m (get_prev m block) ≠ 0 then
    let m := set_size m (get_prev m block)
      ((get_size m (get_prev m block) + get_size m block) % WORD)
    let m := set_next m (get_prev m block) (get_next m block)
    if get_next m block ≠ NULL then set_prev m (get_next m block) (get_prev m block) else m
  else m

/-- The function `add_to_free_list`. -/
def add_to_free_list (s : State) (block : Nat) : State :=
  let m := set_next s.mem block s.malloc_state.free_list
  let m := set_prev m block NULL
  let m :=
    if s.malloc_state.free_list ≠ NULL then set_prev m s.malloc_state.free_list block else m
  { s with mem := m, malloc_state := { s.malloc_state with free_list := block } }

/-- The function `remove_from_free_list`. -/
def remove_from_free_list (s : State) (block : Nat) : State :=
  let s :=
    if get_prev s.mem block ≠ NULL then
      { s with mem := set_next s.mem (get_prev s.mem block) (get_next s.mem block) }
    else
      { s with malloc_state := { s.malloc_state with free_list := get_next s.mem block } }
  if get_next s.mem block ≠ NULL then
    { s with mem := set_prev s.mem (get_next s.mem block) (get_prev s.mem block) }
  else s

/-- The value of `total_size` that `malloc(size)` computes before searching. -/
def request_size (size : Nat) : Nat :=
  let total_size := (size + HEADER_SIZE) % WORD
  let total_size := if total_size < MIN_BLOCK_SIZE then MIN_BLOCK_SIZE else total_size
  ((total_size + 7) % WORD) &&& (WORD - 8)

/-- The function `malloc`.  The outer `Option` is `none` when the search does
not finish within `fuel` iterations; the returned pointer is `none` for the two
`return NULL` statements and `some (block + sizeof(block_header_t))` for the
final `return`. -/
def malloc (fuel : Nat) (s : State) (size : Nat) : Option (Option Nat × State) :=
  let s := if s.malloc_state.initialized = 0 then malloc_init s else s
  if size = 0 then some (none, s)
  else
    let total_size := request_size size
    match find_free_block fuel s total_size with
    | none => none
    | some block =>
      if block = NULL then some (none, s)
      else
        let s := { s with mem := split_block s.mem block total_size }
        let s := { s with mem := set_is_free s.mem block 0 }
        let s := remove_from_free_list s block
        some (some (padd block HEADER_SIZE), s)

/-- The function `free`. -/
def free (s : State) (ptr : Nat) : State :=
  if ptr = NULL then s
  else if s.malloc_state.initialized = 0 then s
  else
    let block := wsub ptr HEADER_SIZE
    if block < s.malloc_state.heap_start ∨
        block ≥ padd s.malloc_state.heap_start s.malloc_state.heap_size then s
    else
      let s := { s with mem := set_is_free s.mem block 1 }
      let s := add_to_free_list s block
      { s with mem := merge_blocks s.mem block }

/-- The function `calloc`. -/
def calloc (fuel : Nat) (s : State) (nmemb size : Nat) : Option (Option Nat × State) :=
  let total_size := (nmemb * size) % WORD
  match malloc fuel s total_size with
  | none => none
  | some (none, s) => some (none, s)
  | some (some ptr, s) => some (some ptr, { s with mem := memset s.mem ptr 0 total_size })

/-- The function `realloc`. -/
def realloc (fuel : Nat) (s : State) (ptr size : Nat) : Option (Option Nat × State) :=
  if ptr = NULL then malloc fuel s size
  else if size = 0 then some (none, free s ptr)
  else
    let block := wsub ptr HEADER_SIZE
    let old_size := wsub (get_size s.mem block) HEADER_SIZE
    if size ≤ old_size then some (some ptr, s)
    else
      match malloc fuel s size with
      | none => none
      | some (none, s) => some (none, s)
      | some (some new_ptr, s) =>
        let s := { s with mem := memcpy s.mem new_ptr ptr old_size }
        some (some new_ptr, free s ptr)


/-! ## A client of the allocator -/

/-- One call made by the client. -/
inductive Call where
  | malloc (size : Nat)
  | free (ptr : Nat)
  | realloc (ptr size : Nat)
  deriving DecidableEq, Repr

/-- The allocator together with the pointers its client holds: `live` lists the
pointers returned by `malloc`/`realloc` and not passed to `free` since. -/
structure Client where
  s : State
  live : List Nat
  deriving DecidableEq, Repr

/-- Perform one call.  `free` and `realloc` are only ever given a live
pointer; otherwise (or when the search runs out of budget) there is no next
client state. -/
def Client.step (fuel : Nat) (c : Client) : Call → Option Client
  | .malloc size =>
    match malloc fuel c.s size with
    | none => none
    | some (none, s) => some ⟨s, c.live⟩
    | some (some p, s) => some ⟨s, p :: c.live⟩
  | .free ptr => if ptr ∈ c.live then some ⟨free c.s ptr, c.live.erase ptr⟩ else none
  | .realloc ptr size =>
    if ptr ∈ c.live then
      match realloc fuel c.s ptr size with
      | none => none
      | some (none, s) => some ⟨s, if size = 0 then c.live.erase ptr else c.live⟩
      | some (some q, s) => some ⟨s, q :: c.live.erase ptr⟩
    else none

/-- Perform a sequence of calls. -/
def run (fuel : Nat) : Client → List Call → Option Client
  | c, [] => some c
  | c, call :: calls =>
    match c.step fuel call with
    | none => none
    | some c => run fuel c calls

/-- The machine before any call: zeroed memory, zeroed `malloc_state`. -/
def boot (region : Nat) : State := ⟨[], ⟨0, 0, 0, 0⟩, region⟩

/-- The freshly initialised allocator, no pointer handed out yet. -/
def fresh (region : Nat) : Client := ⟨malloc_init (boot region), []⟩

/-- Header address and extent of the block whose payload starts at `ptr`. -/
def block_of (s : State) (ptr : Nat) : Nat × Nat :=
  (wsub ptr HEADER_SIZE, get_size s.mem (wsub ptr HEADER_SIZE))

/-- The byte ranges `[x.1, x.1 + x.2)` and `[y.1, y.1 + y.2)` do not meet. -/
def ranges_disjoint (x y : Nat × Nat) : Prop := x.1 + x.2 ≤ y.1 ∨ y.1 + y.2 ≤ x.1

/-- No two distinct live pointers have overlapping blocks. -/
def LiveDisjoint (c : Client) : Prop :=
  ∀ p ∈ c.live, ∀ q ∈ c.live, p ≠ q → ranges_disjoint (block_of c.s p) (block_of c.s q)

/-- The payload capacity `block->size - sizeof(block_header_t)` that `realloc`
computes for `ptr` (its `old_size`). -/
def capacity (s : State) (ptr : Nat) : Nat :=
  wsub (get_size s.mem (wsub ptr HEADER_SIZE)) HEADER_SIZE


/-- An initialised allocator with an empty chain and one occupied block of
extent 136 at the start of the arena (payload pointer `65568`, 104 bytes). -/
def one_block : State :=
  ⟨set_is_free (set_size [] 65536 136) 65536 0, ⟨65536, HEAP_SIZE, NULL, 1⟩, 65536⟩

/-- The list `l` holds, in traversal order, the blocks of the null-terminated
chain that starts at `head` and follows `next`. -/
def IsChain (m : Mem) : Nat → List Nat → Prop
  | head, [] => head = NULL
  | head, b :: l => head ≠ NULL ∧ b = head ∧ IsChain m (get_next m head) l

/-- The test `current->is_free && current->size >= size` of `find_free_block`. -/
def fits (m : Mem) (size block : Nat) : Bool :=
  decide (get_is_free m block ≠ 0 ∧ size ≤ get_size m block)



/-- Whether `l` is the chain from `head` can be computed. -/
instance IsChain.dec (m : Mem) : (head : Nat) → (l : List Nat) → Decidable (IsChain m head l)
  | head, [] => inferInstanceAs (Decidable (head = NULL))
  | head, b :: l =>
    have := IsChain.dec m (get_next m head) l
    inferInstanceAs (Decidable (head ≠ NULL ∧ b = head ∧ IsChain m (get_next m head) l))

/-! ## The states of the fragmentation scenario

Each state is written down as the list of the little-endian fields its memory
holds, in the order in which their bytes were first written; `expand` turns
such a list into the byte memory.  The step lemmas further down check every
state against the code, starting from the freshly initialised allocator. -/

/-- The `n` bytes of the little-endian integer `v`, at addresses `a`, `a + 1`, ... -/
def bytes_of : Nat → Nat → Nat → Mem
  | _, 0, _ => []
  | a, n + 1, v => (a, v % 256) :: bytes_of (a + 1) n (v / 256)

/-- The byte memory that holds the listed fields `(address, width, value)`. -/
def expand : List (Nat × Nat × Nat) → Mem
  | [] => []
  | (a, n, v) :: l => bytes_of a n v ++ expand l

/-- Fragmentation scenario, state 0: the freshly initialised allocator. -/
def frag_00 : Client :=
  ⟨⟨expand [
      (65536, 8, 1048576), (65544, 4, 1), (65552, 8, 0), (65560, 8, 0)],
    ⟨65536, 1048576, 65536, 1⟩, 65536⟩,
   []⟩

/-- Fragmentation scenario, state 1: after `malloc(100)`. -/
def frag_01 : Client :=
  ⟨⟨expand [
      (65536, 8, 136), (65544, 4, 0), (65552, 8, 65672), (65560, 8, 0), (65672, 8, 1048440),
      (65680, 4, 1), (65688, 8, 0), (65696, 8, 0)],
    ⟨65536, 1048576, 65672, 1⟩, 65536⟩,
   [65568]⟩

/-- Fragmentation scenario, state 2: after `malloc(200)`. -/
def frag_02 : Client :=
  ⟨⟨expand [
      (65536, 8, 136), (65544, 4, 0), (65552, 8, 65672), (65560, 8, 0), (65672, 8, 232),
      (65680, 4, 0), (65688, 8, 65904), (65696, 8, 0), (65904, 8, 1048208), (65912, 4, 1),
      (65920, 8, 0), (65928, 8, 0)],
    ⟨65536, 1048576, 65904, 1⟩, 65536⟩,
   [65704, 65568]⟩

/-- Fragmentation scenario, state 3: after `free(65568)`. -/
def frag_03 : Client :=
  ⟨⟨expand [
      (65536, 8, 1048344), (65544, 4, 1), (65552, 8, 0), (65560, 8, 0), (65672, 8, 232),
      (65680, 4, 0), (65688, 8, 65904), (65696, 8, 0), (65904, 8, 1048208), (65912, 4, 1),
      (65920, 8, 0), (65928, 8, 65536)],
    ⟨65536, 1048576, 65536, 1⟩, 65536⟩,
   [65704]⟩

/-- Fragmentation scenario, state 4: after `free(65704)`. -/
def frag_04 : Client :=
  ⟨⟨expand [
      (65536, 8, 1048344), (65544, 4, 1), (65552, 8, 0), (65560, 8, 65672), (65672, 8, 1048576),
      (65680, 4, 1), (65688, 8, 0), (65696, 8, 0), (65904, 8, 1048208), (65912, 4, 1),
      (65920, 8, 0), (65928, 8, 65536)],
    ⟨65536, 1048576, 65672, 1⟩, 65536⟩,
   []⟩

/-- Fragmentation scenario, state 5: after `malloc(50)`. -/
def frag_05 : Client :=
  ⟨⟨expand [
      (65536, 8, 1048344), (65544, 4, 1), (65552, 8, 0), (65560, 8, 65672), (65672, 8, 88),
      (65680, 4, 0), (65688, 8, 65760), (65696, 8, 0), (65904, 8, 1048208), (65912, 4, 1),
      (65920, 8, 0), (65928, 8, 65536), (65760, 8, 1048488), (65768, 4, 1), (65776, 8, 0),
      (65784, 8, 0)],
    ⟨65536, 1048576, 65760, 1⟩, 65536⟩,
   [65704]⟩

/-- Fragmentation scenario, state 6: after `malloc(50)`. -/
def frag_06 : Client :=
  ⟨⟨expand [
      (65536, 8, 1048344), (65544, 4, 1), (65552, 8, 0), (65560, 8, 65672), (65672, 8, 88),
      (65680, 4, 0), (65688, 8, 65760), (65696, 8, 0), (65904, 8, 1048208), (65912, 4, 1),
      (65920, 8, 0), (65928, 8, 65536), (65760, 8, 88), (65768, 4, 0), (65776, 8, 65848),
      (65784, 8, 0), (65848, 8, 1048400), (65856, 4, 1), (65864, 8, 0), (65872, 8, 0)],
    ⟨65536, 1048576, 65848, 1⟩, 65536⟩,
   [65792, 65704]⟩

/-- Fragmentation scenario, state 7: after `malloc(50)`. -/
def frag_07 : Client :=
  ⟨⟨expand [
      (65536, 8, 1048344), (65544, 4, 1), (65552, 8, 0), (65560, 8, 65672), (65672, 8, 88),
      (65680, 4, 0), (65688, 8, 65760), (65696, 8, 0), (65904, 8, 1048208), (65912, 4, 1),
      (65920, 8, 0), (65928, 8, 65536), (65760, 8, 88), (65768, 4, 0), (65776, 8, 65848),
      (65784, 8, 0), (65848, 8, 88), (65856, 4, 0), (65864, 8, 65936), (65872, 8, 0),
      (65936, 8, 1048312), (65944, 4, 1), (65952, 8, 0), (65960, 8, 0)],
    ⟨65536, 1048576, 65936, 1⟩, 65536⟩,
   [65880, 65792, 65704]⟩

/-- Fragmentation scenario, state 8: after `malloc(50)`. -/
def frag_08 : Client :=
  ⟨⟨expand [
      (65536, 8, 1048344), (65544, 4, 1), (65552, 8, 0), (65560, 8, 65672), (65672, 8, 88),
      (65680, 4, 0), (65688, 8, 65760), (65696, 8, 0), (65904, 8, 1048208), (65912, 4, 1),
      (65920, 8, 0), (65928, 8, 65536), (65760, 8, 88), (65768, 4, 0), (65776, 8, 65848),
      (65784, 8, 0), (65848, 8, 88), (65856, 4, 0), (65864, 8, 65936), (65872, 8, 0),
      (65936, 8, 88), (65944, 4, 0), (65952, 8, 66024), (65960, 8, 0), (66024, 8, 1048224),
      (66032, 4, 1), (66040, 8, 0), (66048, 8, 0)],
    ⟨65536, 1048576, 66024, 1⟩, 65536⟩,
   [65968, 65880, 65792, 65704]⟩

/-- Fragmentation scenario, state 9: after `malloc(50)`. -/
def frag_09 : Client :=
  ⟨⟨expand [
      (65536, 8, 1048344), (65544, 4, 1), (65552, 8, 0), (65560, 8, 65672), (65672, 8, 88),
      (65680, 4, 0), (65688, 8, 65760), (65696, 8, 0), (65904, 8, 1048208), (65912, 4, 1),
      (65920, 8, 0), (65928, 8, 65536), (65760, 8, 88), (65768, 4, 0), (65776, 8, 65848),
      (65784, 8, 0), (65848, 8, 88), (65856, 4, 0), (65864, 8, 65936), (65872, 8, 0),
      (65936, 8, 88), (65944, 4, 0), (65952, 8, 66024), (65960, 8, 0), (66024, 8, 88),
      (66032, 4, 0), (66040, 8, 66112), (66048, 8, 0), (66112, 8, 1048136), (66120, 4, 1),
      (66128, 8, 0), (66136, 8, 0)],
    ⟨65536, 1048576, 66112, 1⟩, 65536⟩,
   [66056, 65968, 65880, 65792, 65704]⟩

/-- Fragmentation scenario, state 10: after `malloc(50)`. -/
def frag_10 : Client :=
  ⟨⟨expand [
      (65536, 8, 1048344), (65544, 4, 1), (65552, 8, 0), (65560, 8, 65672), (65672, 8, 88),
      (65680, 4, 0), (65688, 8, 65760), (65696, 8, 0), (65904, 8, 1048208), (65912, 4, 1),
      (65920, 8, 0), (65928, 8, 65536), (65760, 8, 88), (65768, 4, 0), (65776, 8, 65848),
      (65784, 8, 0), (65848, 8, 88), (65856, 4, 0), (65864, 8, 65936), (65872, 8, 0),
      (65936, 8, 88), (65944, 4, 0), (65952, 8, 66024), (65960, 8, 0), (66024, 8, 88),
      (66032, 4, 0), (66040, 8, 66112), (66048, 8, 0), (66112, 8, 88), (66120, 4, 0),
      (66128, 8, 66200), (66136, 8, 0), (66200, 8, 1048048), (66208, 4, 1), (66216, 8, 0),
      (66224, 8, 0)],
    ⟨65536, 1048576, 66200, 1⟩, 65536⟩,
   [66144, 66056, 65968, 65880, 65792, 65704]⟩

/-- Fragmentation scenario, state 11: after `malloc(50)`. -/
def frag_11 : Client :=
  ⟨⟨expand [
      (65536, 8, 1048344), (65544, 4, 1), (65552, 8, 0), (65560, 8, 65672), (65672, 8, 88),
      (65680, 4, 0), (65688, 8, 65760), (65696, 8, 0), (65904, 8, 1048208), (65912, 4, 1),
      (65920, 8, 0), (65928, 8, 65536), (65760, 8, 88), (65768, 4, 0), (65776, 8, 65848),
      (65784, 8, 0), (65848, 8, 88), (65856, 4, 0), (65864, 8, 65936), (65872, 8, 0),
      (65936, 8, 88), (65944, 4, 0), (65952, 8, 66024), (65960, 8, 0), (66024, 8, 88),
      (66032, 4, 0), (66040, 8, 66112), (66048, 8, 0), (66112, 8, 88), (66120, 4, 0),
      (66128, 8, 66200), (66136, 8, 0), (66200, 8, 88), (66208, 4, 0), (66216, 8, 66288),
      (66224, 8, 0), (66288, 8, 1047960), (66296, 4, 1), (66304, 8, 0), (66312, 8, 0)],
    ⟨65536, 1048576, 66288, 1⟩, 65536⟩,
   [66232, 66144, 66056, 65968, 65880, 65792, 65704]⟩

/-- Fragmentation scenario, state 12: after `malloc(50)`. -/
def frag_12 : Client :=
  ⟨⟨expand [
      (65536, 8, 1048344), (65544, 4, 1), (65552, 8, 0), (65560, 8, 65672), (65672, 8, 88),
      (65680, 4, 0), (65688, 8, 65760), (65696, 8, 0), (65904, 8, 1048208), (65912, 4, 1),
      (65920, 8, 0), (65928, 8, 65536), (65760, 8, 88), (65768, 4, 0), (65776, 8, 65848),
      (65784, 8, 0), (65848, 8, 88), (65856, 4, 0), (65864, 8, 65936), (65872, 8, 0),
      (65936, 8, 88), (65944, 4, 0), (65952, 8, 66024), (65960, 8, 0), (66024, 8, 88),
      (66032, 4, 0), (66040, 8, 66112), (66048, 8, 0), (66112, 8, 88), (66120, 4, 0),
      (66128, 8, 66200), (66136, 8, 0), (66200, 8, 88), (66208, 4, 0), (66216, 8, 66288),
      (66224, 8, 0), (66288, 8, 88), (66296, 4, 0), (66304, 8, 66376), (66312, 8, 0),
      (66376, 8, 1047872), (66384, 4, 1), (66392, 8, 0), (66400, 8, 0)],
    ⟨65536, 1048576, 66376, 1⟩, 65536⟩,
   [66320, 66232, 66144, 66056, 65968, 65880, 65792, 65704]⟩

/-- Fragmentation scenario, state 13: after `malloc(50)`. -/
def frag_13 : Client :=
  ⟨⟨expand [
      (65536, 8, 1048344), (65544, 4, 1), (65552, 8, 0), (65560, 8, 65672), (65672, 8, 88),
      (65680, 4, 0), (65688, 8, 65760), (65696, 8, 0), (65904, 8, 1048208), (65912, 4, 1),
      (65920, 8, 0), (65928, 8, 65536), (65760, 8, 88), (65768, 4, 0), (65776, 8, 65848),
      (65784, 8, 0), (65848, 8, 88), (65856, 4, 0), (65864, 8, 65936), (65872, 8, 0),
      (65936, 8, 88), (65944, 4, 0), (65952, 8, 66024), (65960, 8, 0), (66024, 8, 88),
      (66032, 4, 0), (66040, 8, 66112), (66048, 8, 0), (66112, 8, 88), (66120, 4, 0),
      (66128, 8, 66200), (66136, 8, 0), (66200, 8, 88), (66208, 4, 0), (66216, 8, 66288),
      (66224, 8, 0), (66288, 8, 88), (66296, 4, 0), (66304, 8, 66376), (66312, 8, 0),
      (66376, 8, 88), (66384, 4, 0), (66392, 8, 66464), (66400, 8, 0), (66464, 8, 1047784),
      (66472, 4, 1), (66480, 8, 0), (66488, 8, 0)],
    ⟨65536, 1048576, 66464, 1⟩, 65536⟩,
   [66408, 66320, 66232, 66144, 66056, 65968, 65880, 65792, 65704]⟩

/-- Fragmentation scenario, state 14: after `malloc(50)`. -/
def frag_14 : Client :=
  ⟨⟨expand [
      (65536, 8, 1048344), (65544, 4, 1), (65552, 8, 0), (65560, 8, 65672), (65672, 8, 88),
      (65680, 4, 0), (65688, 8, 65760), (65696, 8, 0), (65904, 8, 1048208), (65912, 4, 1),
      (65920, 8, 0), (65928, 8, 65536), (65760, 8, 88), (65768, 4, 0), (65776, 8, 65848),
      (65784, 8, 0), (65848, 8, 88), (65856, 4, 0), (65864, 8, 65936), (65872, 8, 0),
      (65936, 8, 88), (65944, 4, 0), (65952, 8, 66024), (65960, 8, 0), (66024, 8, 88),
      (66032, 4, 0), (66040, 8, 66112), (66048, 8, 0), (66112, 8, 88), (66120, 4, 0),
      (66128, 8, 66200), (66136, 8, 0), (66200, 8, 88), (66208, 4, 0), (66216, 8, 66288),
      (66224, 8, 0), (66288, 8, 88), (66296, 4, 0), (66304, 8, 66376), (66312, 8, 0),
      (66376, 8, 88), (66384, 4, 0), (66392, 8, 66464), (66400, 8, 0), (66464, 8, 88),
      (66472, 4, 0), (66480, 8, 66552), (66488, 8, 0), (66552, 8, 1047696), (66560, 4, 1),
      (66568, 8, 0), (66576, 8, 0)],
    ⟨65536, 1048576, 66552, 1⟩, 65536⟩,
   [66496, 66408, 66320, 66232, 66144, 66056, 65968, 65880, 65792, 65704]⟩

/-- Fragmentation scenario, state 15: after `free(65704)`. -/
def frag_15 : Client :=
  ⟨⟨expand [
      (65536, 8, 1048344), (65544, 4, 1), (65552, 8, 0), (65560, 8, 65672), (65672, 8, 1047784),
      (65680, 4, 1), (65688, 8, 0), (65696, 8, 0), (65904, 8, 1048208), (65912, 4, 1),
      (65920, 8, 0), (65928, 8, 65536), (65760, 8, 88), (65768, 4, 0), (65776, 8, 65848),
      (65784, 8, 0), (65848, 8, 88), (65856, 4, 0), (65864, 8, 65936), (65872, 8, 0),
      (65936, 8, 88), (65944, 4, 0), (65952, 8, 66024), (65960, 8, 0), (66024, 8, 88),
      (66032, 4, 0), (66040, 8, 66112), (66048, 8, 0), (66112, 8, 88), (66120, 4, 0),
      (66128, 8, 66200), (66136, 8, 0), (66200, 8, 88), (66208, 4, 0), (66216, 8, 66288),
      (66224, 8, 0), (66288, 8, 88), (66296, 4, 0), (66304, 8, 66376), (66312, 8, 0),
      (66376, 8, 88), (66384, 4, 0), (66392, 8, 66464), (66400, 8, 0), (66464, 8, 88),
      (66472, 4, 0), (66480, 8, 66552), (66488, 8, 0), (66552, 8, 1047696), (66560, 4, 1),
      (66568, 8, 0), (66576, 8, 65672)],
    ⟨65536, 1048576, 65672, 1⟩, 65536⟩,
   [66496, 66408, 66320, 66232, 66144, 66056, 65968, 65880, 65792]⟩

/-- Fragmentation scenario, state 16: after `free(65880)`. -/
def frag_16 : Client :=
  ⟨⟨expand [
      (65536, 8, 1048344), (65544, 4, 1), (65552, 8, 0), (65560, 8, 65672), (65672, 8, 1047784),
      (65680, 4, 1), (65688, 8, 0), (65696, 8, 65848), (65904, 8, 1048208), (65912, 4, 1),
      (65920, 8, 0), (65928, 8, 65536), (65760, 8, 88), (65768, 4, 0), (65776, 8, 65848),
      (65784, 8, 0), (65848, 8, 1047872), (65856, 4, 1), (65864, 8, 0), (65872, 8, 0),
      (65936, 8, 88), (65944, 4, 0), (65952, 8, 66024), (65960, 8, 0), (66024, 8, 88),
      (66032, 4, 0), (66040, 8, 66112), (66048, 8, 0), (66112, 8, 88), (66120, 4, 0),
      (66128, 8, 66200), (66136, 8, 0), (66200, 8, 88), (66208, 4, 0), (66216, 8, 66288),
      (66224, 8, 0), (66288, 8, 88), (66296, 4, 0), (66304, 8, 66376), (66312, 8, 0),
      (66376, 8, 88), (66384, 4, 0), (66392, 8, 66464), (66400, 8, 0), (66464, 8, 88),
      (66472, 4, 0), (66480, 8, 66552), (66488, 8, 0), (66552, 8, 1047696), (66560, 4, 1),
      (66568, 8, 0), (66576, 8, 65672)],
    ⟨65536, 1048576, 65848, 1⟩, 65536⟩,
   [66496, 66408, 66320, 66232, 66144, 66056, 65968, 65792]⟩

/-- Fragmentation scenario, state 17: after `free(66056)`. -/
def frag_17 : Client :=
  ⟨⟨expand [
      (65536, 8, 1048344), (65544, 4, 1), (65552, 8, 0), (65560, 8, 65672), (65672, 8, 1047784),
      (65680, 4, 1), (65688, 8, 0), (65696, 8, 65848), (65904, 8, 1048208), (65912, 4, 1),
      (65920, 8, 0), (65928, 8, 65536), (65760, 8, 88), (65768, 4, 0), (65776, 8, 65848),
      (65784, 8, 0), (65848, 8, 1047872), (65856, 4, 1), (65864, 8, 0), (65872, 8, 66024),
      (65936, 8, 88), (65944, 4, 0), (65952, 8, 66024), (65960, 8, 0), (66024, 8, 1047960),
      (66032, 4, 1), (66040, 8, 0), (66048, 8, 0), (66112, 8, 88), (66120, 4, 0),
      (66128, 8, 66200), (66136, 8, 0), (66200, 8, 88), (66208, 4, 0), (66216, 8, 66288),
      (66224, 8, 0), (66288, 8, 88), (66296, 4, 0), (66304, 8, 66376), (66312, 8, 0),
      (66376, 8, 88), (66384, 4, 0), (66392, 8, 66464), (66400, 8, 0), (66464, 8, 88),
      (66472, 4, 0), (66480, 8, 66552), (66488, 8, 0), (66552, 8, 1047696), (66560, 4, 1),
      (66568, 8, 0), (66576, 8, 65672)],
    ⟨65536, 1048576, 66024, 1⟩, 65536⟩,
   [66496, 66408, 66320, 66232, 66144, 65968, 65792]⟩

/-- Fragmentation scenario, state 18: after `free(66232)`. -/
def frag_18 : Client :=
  ⟨⟨expand [
      (65536, 8, 1048344), (65544, 4, 1), (65552, 8, 0), (65560, 8, 65672), (65672, 8, 1047784),
      (65680, 4, 1), (65688, 8, 0), (65696, 8, 65848), (65904, 8, 1048208), (65912, 4, 1),
      (65920, 8, 0), (65928, 8, 65536), (65760, 8, 88), (65768, 4, 0), (65776, 8, 65848),
      (65784, 8, 0), (65848, 8, 1047872), (65856, 4, 1), (65864, 8, 0), (65872, 8, 66024),
      (65936, 8, 88), (65944, 4, 0), (65952, 8, 66024), (65960, 8, 0), (66024, 8, 1047960),
      (66032, 4, 1), (66040, 8, 0), (66048, 8, 66200), (66112, 8, 88), (66120, 4, 0),
      (66128, 8, 66200), (66136, 8, 0), (66200, 8, 1048048), (66208, 4, 1), (66216, 8, 0),
      (66224, 8, 0), (66288, 8, 88), (66296, 4, 0), (66304, 8, 66376), (66312, 8, 0),
      (66376, 8, 88), (66384, 4, 0), (66392, 8, 66464), (66400, 8, 0), (66464, 8, 88),
      (66472, 4, 0), (66480, 8, 66552), (66488, 8, 0), (66552, 8, 1047696), (66560, 4, 1),
      (66568, 8, 0), (66576, 8, 65672)],
    ⟨65536, 1048576, 66200, 1⟩, 65536⟩,
   [66496, 66408, 66320, 66144, 65968, 65792]⟩

/-- Fragmentation scenario, state 19: after `free(66408)`. -/
def frag_19 : Client :=
  ⟨⟨expand [
      (65536, 8, 1048344), (65544, 4, 1), (65552, 8, 0), (65560, 8, 65672), (65672, 8, 1047784),
      (65680, 4, 1), (65688, 8, 0), (65696, 8, 65848), (65904, 8, 1048208), (65912, 4, 1),
      (65920, 8, 0), (65928, 8, 65536), (65760, 8, 88), (65768, 4, 0), (65776, 8, 65848),
      (65784, 8, 0), (65848, 8, 1047872), (65856, 4, 1), (65864, 8, 0), (65872, 8, 66024),
      (65936, 8, 88), (65944, 4, 0), (65952, 8, 66024), (65960, 8, 0), (66024, 8, 1047960),
      (66032, 4, 1), (66040, 8, 0), (66048, 8, 66200), (66112, 8, 88), (66120, 4, 0),
      (66128, 8, 66200), (66136, 8, 0), (66200, 8, 1048048), (66208, 4, 1), (66216, 8, 0),
      (66224, 8, 66376), (66288, 8, 88), (66296, 4, 0), (66304, 8, 66376), (66312, 8, 0),
      (66376, 8, 1048136), (66384, 4, 1), (66392, 8, 0), (66400, 8, 0), (66464, 8, 88),
      (66472, 4, 0), (66480, 8, 66552), (66488, 8, 0), (66552, 8, 1047696), (66560, 4, 1),
      (66568, 8, 0), (66576, 8, 65672)],
    ⟨65536, 1048576, 66376, 1⟩, 65536⟩,
   [66496, 66320, 66144, 65968, 65792]⟩

/-- Fragmentation scenario, state 20: after `malloc(200)`. -/
def frag_20 : Client :=
  ⟨⟨expand [
      (65536, 8, 1048344), (65544, 4, 1), (65552, 8, 0), (65560, 8, 65672), (65672, 8, 1047784),
      (65680, 4, 1), (65688, 8, 0), (65696, 8, 65848), (65904, 8, 1048208), (65912, 4, 1),
      (65920, 8, 0), (65928, 8, 65536), (65760, 8, 88), (65768, 4, 0), (65776, 8, 65848),
      (65784, 8, 0), (65848, 8, 1047872), (65856, 4, 1), (65864, 8, 0), (65872, 8, 66024),
      (65936, 8, 88), (65944, 4, 0), (65952, 8, 66024), (65960, 8, 0), (66024, 8, 1047960),
      (66032, 4, 1), (66040, 8, 0), (66048, 8, 66200), (66112, 8, 88), (66120, 4, 0),
      (66128, 8, 66200), (66136, 8, 0), (66200, 8, 1048048), (66208, 4, 1), (66216, 8, 0),
      (66224, 8, 66376), (66288, 8, 88), (66296, 4, 0), (66304, 8, 66376), (66312, 8, 0),
      (66376, 8, 232), (66384, 4, 0), (66392, 8, 66608), (66400, 8, 0), (66464, 8, 88),
      (66472, 4, 0), (66480, 8, 66552), (66488, 8, 0), (66552, 8, 1047696), (66560, 4, 1),
      (66568, 8, 0), (66576, 8, 65672), (66608, 8, 1047904), (66616, 4, 1), (66624, 8, 0),
      (66632, 8, 0)],
    ⟨65536, 1048576, 66608, 1⟩, 65536⟩,
   [66408, 66496, 66320, 66144, 65968, 65792]⟩

/-- The `kx` bytes from address `x` and the `ky` bytes from address `y` are
different bytes of memory (addresses taken modulo the pointer width). -/
def disjoint_bytes (x kx y ky : Nat) : Prop :=
  ∀ i, i < kx → ∀ j, j < ky → padd x i ≠ padd y j



/-- A memory with one header at `65536`: extent 1000, `next = 70000`. -/
def linked_block : Mem := set_next (set_size [] 65536 1000) 65536 70000



/-- A memory with one header at `65536`: extent 1000, `next` the block itself. -/
def self_linked : Mem := set_next (set_size [] 65536 1000) 65536 65536

/-- The first statement of `merge_blocks`: merge `block->next` into `block`
when it exists and is free. -/
def merge_forward (m : Mem) (block : Nat) : Mem :=
  if get_next m block ≠ NULL ∧ get_is_free m (get_next m block) ≠ 0 then
    let m := set_size m block ((get_size m block + get_size m (get_next m block)) % WORD)
    let m := set_next m block (get_next m (get_next m block))
    if get_next m block ≠ NULL then set_prev m (get_next m block) block else m
  else m

/-- The condition of the second statement of `merge_blocks`:
`block->prev != NULL && block->prev->is_free`. -/
def merge_backward_taken (m : Mem) (block : Nat) : Prop :=
  get_prev m block ≠ NULL ∧ get_is_free m (get_prev m block) ≠ 0

/-- The memory on which `free` calls `merge_blocks`: `block->is_free = 1`
followed by `add_to_free_list(block)`. -/
def free_linked (s : State) (block : Nat) : State :=
  add_to_free_list { s with mem := set_is_free s.mem block 1 } block



/-- The condition of the backward merge can be computed. -/
instance merge_backward_taken.dec (m : Mem) (block : Nat) :
    Decidable (merge_backward_taken m block) :=
  inferInstanceAs (Decidable (get_prev m block ≠ NULL ∧ get_is_free m (get_prev m block) ≠ 0))



/-- An initialised allocator whose chain starts with a free block of extent 100
at `70000` with `next = 80000`, and an occupied block of extent 136 at `65536`
that is not in the chain. -/
def chain_and_block : State :=
  ⟨set_next (set_is_free (set_size (set_size [] 65536 136) 70000 100) 70000 1) 70000 80000,
   ⟨65536, HEAP_SIZE, 70000, 1⟩, 65536⟩

/-! ## The states of the misalignment scenario

Written down like the states of the fragmentation scenario, as functions of
the address `region` of the arena; a field that was written across older
ones shows up as the bytes it added. -/

/-- Arena addresses at which the misalignment scenario is checked: the address
of the other scenarios, a heap right behind a statically linked image, a
half-gigabyte mark, and a heap of a position-independent executable. -/
def skew_regions : List Nat := [65536, 4214944, 536870912, 93824994349056]

/-- Misalignment scenario, state 0: the freshly initialised allocator. -/
def skew_00 (region : Nat) : Client :=
  ⟨⟨expand [
      (region + 0, 8, 1048576), (region + 8, 4, 1), (region + 16, 8, 0), (region + 24, 8, 0)],
    ⟨region, 1048576, region + 0, 1⟩, region⟩,
   []⟩

/-- Misalignment scenario, state 1: after `malloc(32)`, which returns `region + 32`. -/
def skew_01 (region : Nat) : Client :=
  ⟨⟨expand [
      (region + 0, 8, 64), (region + 8, 4, 0), (region + 16, 8, region + 64),
      (region + 24, 8, 0), (region + 64, 8, 1048512), (region + 72, 4, 1), (region + 80, 8, 0),
      (region + 88, 8, 0)],
    ⟨region, 1048576, region + 64, 1⟩, region⟩,
   [region + 32]⟩

/-- Misalignment scenario, state 2: after `malloc(8)`, which returns `region + 96`. -/
def skew_02 (region : Nat) : Client :=
  ⟨⟨expand [
      (region + 0, 8, 64), (region + 8, 4, 0), (region + 16, 8, region + 64),
      (region + 24, 8, 0), (region + 64, 8, 40), (region + 72, 4, 0),
      (region + 80, 8, region + 104), (region + 88, 8, 0), (region + 104, 8, 1048472),
      (region + 112, 4, 1), (region + 120, 8, 0), (region + 128, 8, 0)],
    ⟨region, 1048576, region + 104, 1⟩, region⟩,
   [region + 96, region + 32]⟩

/-- Misalignment scenario, state 3: after `malloc(64)`, which returns `region + 136`. -/
def skew_03 (region : Nat) : Client :=
  ⟨⟨expand [
      (region + 0, 8, 64), (region + 8, 4, 0), (region + 16, 8, region + 64),
      (region + 24, 8, 0), (region + 64, 8, 40), (region + 72, 4, 0),
      (region + 80, 8, region + 104), (region + 88, 8, 0), (region + 104, 8, 96),
      (region + 112, 4, 0), (region + 120, 8, region + 200), (region + 128, 8, 0),
      (region + 200, 8, 1048376), (region + 208, 4, 1), (region + 216, 8, 0),
      (region + 224, 8, 0)],
    ⟨region, 1048576, region + 200, 1⟩, region⟩,
   [region + 136, region + 96, region + 32]⟩

/-- Misalignment scenario, state 4: after `free(region + 32)`. -/
def skew_04 (region : Nat) : Client :=
  ⟨⟨expand [
      (region + 0, 8, 1048440), (region + 8, 4, 1), (region + 16, 8, 0), (region + 24, 8, 0),
      (region + 64, 8, 40), (region + 72, 4, 0), (region + 80, 8, region + 104),
      (region + 88, 8, 0), (region + 104, 8, 96), (region + 112, 4, 0),
      (region + 120, 8, region + 200), (region + 128, 8, 0), (region + 200, 8, 1048376),
      (region + 208, 4, 1), (region + 216, 8, 0), (region + 224, 8, region + 0)],
    ⟨region, 1048576, region + 0, 1⟩, region⟩,
   [region + 136, region + 96]⟩

/-- Misalignment scenario, state 5: after `malloc(64)`, which returns `region + 32`. -/
def skew_05 (region : Nat) : Client :=
  ⟨⟨expand [
      (region + 0, 8, 96), (region + 8, 4, 0), (region + 16, 8, region + 96),
      (region + 24, 8, 0), (region + 64, 8, 40), (region + 72, 4, 0),
      (region + 80, 8, region + 104), (region + 88, 8, 0), (region + 104, 8, 1),
      (region + 112, 4, 0), (region + 120, 8, 0), (region + 128, 8, 0),
      (region + 200, 8, 1048376), (region + 208, 4, 1), (region + 216, 8, 0),
      (region + 224, 8, region + 0), (region + 96, 8, 1048344), (region + 116, 4, 0)],
    ⟨region, 1048576, region + 96, 1⟩, region⟩,
   [region + 32, region + 136, region + 96]⟩

/-- Misalignment scenario, state 6: after `free(region + 32)`. -/
def skew_06 (region : Nat) : Client :=
  ⟨⟨expand [
      (region + 0, 8, 1048440), (region + 8, 4, 1), (region + 16, 8, 0), (region + 24, 8, 0),
      (region + 64, 8, 40), (region + 72, 4, 0), (region + 80, 8, region + 104),
      (region + 88, 8, 0), (region + 104, 8, 1), (region + 112, 4, 0),
      (region + 120, 8, region + 0), (region + 128, 8, 0), (region + 200, 8, 1048376),
      (region + 208, 4, 1), (region + 216, 8, 0), (region + 224, 8, region + 0),
      (region + 96, 8, 1048344), (region + 116, 4, 0)],
    ⟨region, 1048576, region + 0, 1⟩, region⟩,
   [region + 136, region + 96]⟩

/-- Misalignment scenario, state 7: after `malloc(88)`, which returns `region + 32`. -/
def skew_07 (region : Nat) : Client :=
  ⟨⟨expand [
      (region + 0, 8, 120), (region + 8, 4, 0), (region + 16, 8, region + 120),
      (region + 24, 8, 0), (region + 64, 8, 40), (region + 72, 4, 0),
      (region + 80, 8, region + 104), (region + 88, 8, 0), (region + 104, 8, 1),
      (region + 112, 4, 0), (region + 120, 8, 1048320), (region + 128, 8, 1),
      (region + 200, 8, 1048376), (region + 208, 4, 1), (region + 216, 8, 0),
      (region + 224, 8, region + 0), (region + 96, 8, 1048344), (region + 116, 4, 0),
      (region + 136, 8, 0), (region + 144, 8, 0)],
    ⟨region, 1048576, region + 120, 1⟩, region⟩,
   [region + 32, region + 136, region + 96]⟩

/-- Misalignment scenario, state 8: after `free(region + 136)`. -/
def skew_08 (region : Nat) : Client :=
  ⟨⟨expand [
      (region + 0, 8, 120), (region + 8, 4, 0), (region + 16, 8, region + 120),
      (region + 24, 8, 0), (region + 64, 8, 40), (region + 72, 4, 0),
      (region + 80, 8, region + 104), (region + 88, 8, 0), (region + 104, 8, 1),
      (region + 112, 4, 1), (region + 120, 8, region + 120), (region + 128, 8, 0),
      (region + 200, 8, 1048376), (region + 208, 4, 1), (region + 216, 8, 0),
      (region + 224, 8, region + 0), (region + 96, 8, 1048344), (region + 116, 4, 0),
      (region + 136, 8, 0), (region + 144, 8, region + 104)],
    ⟨region, 1048576, region + 104, 1⟩, region⟩,
   [region + 32, region + 96]⟩

/-- Misalignment scenario, state 9: after `free(region + 32)`. -/
def skew_09 (region : Nat) : Client :=
  ⟨⟨expand [
      (region + 0, 8, 121), (region + 8, 4, 1), (region + 16, 8, region + 120),
      (region + 24, 8, 0), (region + 64, 8, 40), (region + 72, 4, 0),
      (region + 80, 8, region + 104), (region + 88, 8, 0), (region + 104, 8, 1),
      (region + 112, 4, 1), (region + 120, 8, region + 120), (region + 128, 8, region + 0),
      (region + 200, 8, 1048376), (region + 208, 4, 1), (region + 216, 8, 0),
      (region + 224, 8, region + 0), (region + 96, 8, 1048344), (region + 116, 4, 0),
      (region + 136, 8, 0), (region + 144, 8, region + 0)],
    ⟨region, 1048576, region + 0, 1⟩, region⟩,
   [region + 96]⟩

/-- Misalignment scenario, state 10: after `malloc(16)`, which returns `region + 32`. -/
def skew_10 (region : Nat) : Client :=
  ⟨⟨expand [
      (region + 0, 8, 48), (region + 8, 4, 0), (region + 16, 8, region + 48),
      (region + 24, 8, 0), (region + 64, 8, region + 120), (region + 72, 4, 0),
      (region + 80, 8, region + 104), (region + 88, 8, 0), (region + 104, 8, 1),
      (region + 112, 4, 1), (region + 120, 8, region + 120), (region + 128, 8, region + 0),
      (region + 200, 8, 1048376), (region + 208, 4, 1), (region + 216, 8, 0),
      (region + 224, 8, region + 0), (region + 96, 8, 1048344), (region + 116, 4, 0),
      (region + 136, 8, 0), (region + 144, 8, region + 48), (region + 48, 8, 73),
      (region + 56, 4, 1), (region + 76, 4, 0)],
    ⟨region, 1048576, region + 48, 1⟩, region⟩,
   [region + 32, region + 96]⟩

/-- Misalignment scenario, state 11: after `free(region + 96)`. -/
def skew_11 (region : Nat) : Client :=
  ⟨⟨expand [
      (region + 0, 8, 48), (region + 8, 4, 0), (region + 16, 8, region + 48),
      (region + 24, 8, 0), (region + 64, 8, region + 193), (region + 72, 4, region + 64),
      (region + 80, 8, region + 193), (region + 88, 8, 0), (region + 104, 8, 1),
      (region + 112, 4, 1), (region + 120, 8, region + 120), (region + 128, 8, region + 0),
      (region + 200, 8, 1048376), (region + 208, 4, 1), (region + 216, 1, 0),
      (region + 217, 8, region + 64), (region + 225, 7, (region + 0) / 256 ^ 1),
      (region + 96, 8, 1048344), (region + 116, 4, 0), (region + 136, 8, 0),
      (region + 144, 8, region + 48), (region + 48, 8, 73), (region + 56, 4, 1),
      (region + 76, 4, (region + 64) / 256 ^ 4)],
    ⟨region, 1048576, region + 64, 1⟩, region⟩,
   [region + 32]⟩

/-- Misalignment scenario, state 12: after `malloc(4035225266123964384)`, which returns `region + 225`. -/
def skew_12 (region : Nat) : Client :=
  ⟨⟨expand [
      (region + 0, 8, 48), (region + 8, 4, 0), (region + 16, 8, region + 48),
      (region + 24, 8, 0), (region + 64, 8, region + 193), (region + 72, 4, region + 64),
      (region + 80, 8, 0), (region + 88, 8, 0), (region + 104, 8, 1), (region + 112, 4, 1),
      (region + 120, 8, region + 120), (region + 128, 8, region + 0), (region + 200, 8, 56),
      (region + 208, 4, 1), (region + 216, 1, 0), (region + 217, 8, region + 64),
      (region + 225, 7, (region + 0) / 256 ^ 1), (region + 96, 8, 1048344), (region + 116, 4, 0),
      (region + 136, 8, 0), (region + 144, 8, region + 48), (region + 48, 8, 73),
      (region + 56, 4, 1), (region + 76, 4, (region + 64) / 256 ^ 4)],
    ⟨region, 1048576, region + 64, 1⟩, region⟩,
   [region + 225, region + 32]⟩

/-- Misalignment scenario, state 13: after `free(region + 225)`. -/
def skew_13 (region : Nat) : Client :=
  ⟨⟨expand [
      (region + 0, 8, 48), (region + 8, 4, 0), (region + 16, 8, region + 48),
      (region + 24, 8, 0), (region + 64, 8, region + 193), (region + 72, 4, region + 64),
      (region + 80, 8, 0), (region + 88, 8, region + 193), (region + 104, 8, 1),
      (region + 112, 4, 1), (region + 120, 8, region + 120), (region + 128, 8, region + 0),
      (region + 200, 8, 312), (region + 208, 4, 1), (region + 216, 8, 0), (region + 224, 1, 0),
      (region + 225, 7, (region + 0) / 256 ^ 1), (region + 96, 8, 1048344), (region + 116, 4, 0),
      (region + 136, 8, 0), (region + 144, 8, region + 48), (region + 48, 8, 73),
      (region + 56, 4, 1), (region + 76, 4, (region + 64) / 256 ^ 4), (region + 212, 4, 0),
      (region + 193, 7, region + 193)],
    ⟨region, 1048576, region + 193, 1⟩, region⟩,
   [region + 32]⟩

/-- Misalignment scenario, state 14: after `malloc(8)`, which returns `region + 225`. -/
def skew_14 (region : Nat) : Client :=
  ⟨⟨expand [
      (region + 0, 8, 48), (region + 8, 4, 0), (region + 16, 8, region + 48),
      (region + 24, 8, 0), (region + 64, 8, region + 193), (region + 72, 4, region + 64),
      (region + 80, 8, 0), (region + 88, 8, region + 193), (region + 104, 8, 1),
      (region + 112, 4, 1), (region + 120, 8, region + 120), (region + 128, 8, region + 0),
      (region + 200, 8, 0), (region + 208, 1, 1), (region + 209, 3, region + 233),
      (region + 216, 8, 0), (region + 224, 1, 0), (region + 225, 7, (region + 0) / 256 ^ 1),
      (region + 96, 8, 1048344), (region + 116, 4, 0), (region + 136, 8, 0),
      (region + 144, 8, region + 48), (region + 48, 8, 73), (region + 56, 4, 1),
      (region + 76, 4, (region + 64) / 256 ^ 4), (region + 212, 4, (region + 233) / 256 ^ 3),
      (region + 193, 7, 40), (region + 233, 8, region + 4035225266123964569),
      (region + 241, 4, 1), (region + 249, 8, 0), (region + 257, 8, 0)],
    ⟨region, 1048576, region + 233, 1⟩, region⟩,
   [region + 225, region + 32]⟩

/-! ## Reading after writing -/

theorem WORD_eq : WORD = 18446744073709551616 := by
  norm_num [WORD]

theorem rd8_lt (m : Mem) (a : Nat) : rd8 m a < 256 := by
  induction m with
  | nil => simp [rd8]
  | cons e m ih =>
    obtain ⟨k, v⟩ := e
    unfold rd8
    split
    · exact Nat.mod_lt _ (by norm_num)
    · exact ih

theorem rdN_lt (n : Nat) (m : Mem) (a : Nat) : rdN n m a < 256 ^ n := by
  induction n with
  | zero => simp [rdN]
  | succ n ih =>
    have h8 := rd8_lt m (padd a n)
    have hmul : 256 ^ n * rd8 m (padd a n) ≤ 256 ^ n * 255 :=
      Nat.mul_le_mul_left _ (by omega)
    have hpow : 256 ^ (n + 1) = 256 ^ n * 255 + 256 ^ n := by ring
    unfold rdN
    omega

theorem get_size_lt (m : Mem) (block : Nat) : get_size m block < WORD := by
  have h := rdN_lt 8 m block
  have h2 : (256 : Nat) ^ 8 = WORD := by norm_num [WORD]
  unfold get_size
  omega

theorem rd8_wr8 (m : Mem) (a v b : Nat) :
    rd8 (wr8 m a v) b = if b = a then v % 256 else rd8 m b := by
  induction m with
  | nil =>
    by_cases h : b = a
    · simp [wr8, rd8, h]
    · have h2 : ¬ a = b := fun e => h e.symm
      simp [wr8, rd8, h, h2]
  | cons e m ih =>
    obtain ⟨k, x⟩ := e
    by_cases hk : k = a
    · subst hk
      by_cases h : b = k
      · subst h
        simp [wr8, rd8]
      · have h2 : ¬ k = b := fun e => h e.symm
        simp [wr8, rd8, h, h2]
    · by_cases hkb : k = b
      · subst hkb
        simp [wr8, rd8, hk]
      · simp only [wr8, if_neg hk, rd8, if_neg hkb]
        exact ih

theorem rd8_wrN_of_ne (n : Nat) (m : Mem) (a v b : Nat) (h : ∀ i, i < n → padd a i ≠ b) :
    rd8 (wrN n m a v) b = rd8 m b := by
  induction n with
  | zero => rfl
  | succ n ih =>
    have hb : ¬ b = padd a n := fun e => h n (Nat.lt_succ_self n) e.symm
    unfold wrN
    rw [rd8_wr8, if_neg hb]
    exact ih (fun i hi => h i (Nat.lt_succ_of_lt hi))

theorem padd_inj (a i j : Nat) (hi : i < WORD) (hj : j < WORD) (h : padd a i = padd a j) :
    i = j := by
  unfold padd at h
  have h2 : i ≡ j [MOD WORD] := Nat.ModEq.add_left_cancel' a h
  unfold Nat.ModEq at h2
  rwa [Nat.mod_eq_of_lt hi, Nat.mod_eq_of_lt hj] at h2

theorem rd8_wrN_at (n : Nat) (m : Mem) (a v i : Nat) (hi : i < n) (hn : n ≤ WORD) :
    rd8 (wrN n m a v) (padd a i) = v / 256 ^ i % 256 := by
  induction n with
  | zero => omega
  | succ n ih =>
    unfold wrN
    rw [rd8_wr8]
    by_cases hin : i = n
    · subst hin
      simp
    · have hne : ¬ padd a i = padd a n := fun e => hin (padd_inj a i n (by omega) (by omega) e)
      rw [if_neg hne]
      exact ih (by omega) (by omega)

theorem rdN_wrN_of_disjoint (k n : Nat) (m : Mem) (a v b : Nat)
    (h : ∀ i, i < k → ∀ j, j < n → padd a i ≠ padd b j) :
    rdN n (wrN k m a v) b = rdN n m b := by
  induction n with
  | zero => rfl
  | succ n ih =>
    unfold rdN
    rw [ih (fun i hi j hj => h i hi j (Nat.lt_succ_of_lt hj)),
      rd8_wrN_of_ne k m a v (padd b n) (fun i hi => h i hi n (Nat.lt_succ_self n))]

theorem rdN_wrN_low (k n : Nat) (m : Mem) (a v : Nat) (hk : k ≤ n) (hn : n ≤ WORD) :
    rdN k (wrN n m a v) a = v % 256 ^ k := by
  induction k with
  | zero => simp [rdN, Nat.mod_one]
  | succ k ih =>
    unfold rdN
    rw [ih (by omega), rd8_wrN_at n m a v k (by omega) hn, Nat.mod_pow_succ]

theorem rdN_wrN_same (n : Nat) (m : Mem) (a v : Nat) (hn : n ≤ WORD) :
    rdN n (wrN n m a v) a = v % 256 ^ n :=
  rdN_wrN_low n n m a v (Nat.le_refl n) hn


/-! ## Helper lemmas -/

/-- What `malloc_init` leaves behind when the backing region was obtained. -/
theorem malloc_init_effect (s : State) (h0 : s.malloc_state.initialized = 0)
    (hreg : s.region ≠ SBRK_FAILED) :
    (malloc_init s).malloc_state = ⟨s.region, HEAP_SIZE, s.region, 1⟩ ∧
    (malloc_init s).region = s.region ∧
    get_size (malloc_init s).mem s.region = HEAP_SIZE ∧
    get_is_free (malloc_init s).mem s.region = 1 ∧
    get_next (malloc_init s).mem s.region = NULL ∧
    get_prev (malloc_init s).mem s.region = NULL ∧
    ∀ a, (∀ i, i < HEADER_SIZE → padd s.region i ≠ a) →
      rd8 (malloc_init s).mem a = rd8 s.mem a := by
  have hW : (8 : Nat) ≤ WORD := by rw [WORD_eq]; omega
  have hW4 : (4 : Nat) ≤ WORD := by rw [WORD_eq]; omega
  have hm : (malloc_init s).mem =
      set_prev (set_next (set_is_free (set_size s.mem s.region HEAP_SIZE) s.region 1)
        s.region NULL) s.region NULL := by
    simp [malloc_init, h0, hreg]
  refine ⟨by simp [malloc_init, h0, hreg], by simp [malloc_init, h0, hreg], ?_, ?_, ?_, ?_, ?_⟩
  · rw [hm]
    unfold get_size set_prev set_next set_is_free set_size
    rw [rdN_wrN_of_disjoint, rdN_wrN_of_disjoint, rdN_wrN_of_disjoint, rdN_wrN_same _ _ _ _ hW]
    · norm_num [HEAP_SIZE]
    all_goals
      intro i hi j hj
      simp only [padd, WORD_eq]
      omega
  · rw [hm]
    unfold get_is_free set_prev set_next set_is_free set_size
    rw [rdN_wrN_of_disjoint, rdN_wrN_of_disjoint, rdN_wrN_same _ _ _ _ hW4]
    · norm_num
    all_goals
      intro i hi j hj
      simp only [padd, WORD_eq]
      omega
  · rw [hm]
    unfold get_next set_prev set_next set_is_free set_size
    rw [rdN_wrN_of_disjoint, rdN_wrN_same _ _ _ _ hW]
    · simp [NULL]
    all_goals
      intro i hi j hj
      simp only [padd, WORD_eq]
      omega
  · rw [hm]
    unfold get_prev set_prev set_next set_is_free set_size
    rw [rdN_wrN_same _ _ _ _ hW]
    simp [NULL]
  · intro a ha
    rw [hm]
    unfold set_prev set_next set_is_free set_size
    rw [rd8_wrN_of_ne, rd8_wrN_of_ne, rd8_wrN_of_ne, rd8_wrN_of_ne]
    · intro i hi
      have := ha i (by simp only [HEADER_SIZE]; omega)
      exact this
    · intro i hi e
      refine ha (8 + i) (by simp only [HEADER_SIZE]; omega) ?_
      rw [← e]; simp only [padd, WORD_eq]; omega
    · intro i hi e
      refine ha (16 + i) (by simp only [HEADER_SIZE]; omega) ?_
      rw [← e]; simp only [padd, WORD_eq]; omega
    · intro i hi e
      refine ha (24 + i) (by simp only [HEADER_SIZE]; omega) ?_
      rw [← e]; simp only [padd, WORD_eq]; omega

/-- A successful evaluation seen through a projection comes from a value. -/
theorem of_map_eq_some {α β : Type} {o : Option α} {f : α → β} {b : β}
    (h : o.map f = some b) : ∃ a, o = some a ∧ f a = b :=
  Option.map_eq_some'.mp h

/-- An allocator call whose returned pointer is known has some final state. -/
theorem of_ret_eq {r : Option (Option Nat × State)} {p : Option Nat}
    (h : r.map Prod.fst = some p) : ∃ s, r = some (p, s) := by
  obtain ⟨x, hx, hp⟩ := Option.map_eq_some'.mp h
  exact ⟨x.2, by rw [hx, ← hp]⟩


/-! ## Claims about states reached by `malloc` and `free`

The arena of the examples starts at address `65536` (`0x10000`); offsets
`32`, `136`, `168` from it are the addresses `65568`, `65672`, `65704`. -/

/-- C1 (live allocations never overlap) fails on the code.  After
`p1 = malloc(100)`, `p2 = malloc(200)`, `free(p1)`, the call `malloc(200)`
returns `p1` again with a block of extent 232 at offset 0, while the block of
the still live `p2` starts at offset 136: `free(p1)` pushed the first block on
the head of the chain and `merge_blocks` absorbed the tail block into it,
although the block of `p2` lies between them. -/
theorem C1_live_blocks_overlap :
    ∃ c, run 4 (fresh 65536) [.malloc 100, .malloc 200, .free 65568, .malloc 200] = some c ∧
      c.live = [65568, 65704] ∧
      block_of c.s 65568 = (65536, 232) ∧ block_of c.s 65704 = (65672, 232) ∧
      ¬ LiveDisjoint c := by
  have h : (run 4 (fresh 65536) [.malloc 100, .malloc 200, .free 65568, .malloc 200]).map
      (fun c => (c.live, block_of c.s 65568, block_of c.s 65704))
      = some ([65568, 65704], (65536, 232), (65672, 232)) := by decide!
  obtain ⟨c, hc, hv⟩ := of_map_eq_some h
  have h1 : c.live = [65568, 65704] := congrArg Prod.fst hv
  have h2 : block_of c.s 65568 = (65536, 232) := congrArg (fun x => x.2.1) hv
  have h3 : block_of c.s 65704 = (65672, 232) := congrArg (fun x => x.2.2) hv
  refine ⟨c, hc, h1, h2, h3, ?_⟩
  intro hd
  have h4 := hd 65568 (by rw [h1]; decide) 65704 (by rw [h1]; decide) (by decide)
  rw [h2, h3] at h4
  simp only [ranges_disjoint] at h4
  omega

/-- C2 (every successful allocation lies inside the arena) fails on the code.
After `p1 = malloc(100)`, `p2 = malloc(200)`, `free(p1)`, `free(p2)` the block at
offset 136 has absorbed the whole chain and claims 1048576 bytes; the call
`malloc(1048544)` then returns offset 168, and the 1048544 bytes handed out
reach 136 bytes past the last byte of the arena. -/
theorem C2_allocation_past_arena_end :
    ∃ c s, run 4 (fresh 65536) [.malloc 100, .malloc 200, .free 65568, .free 65704] = some c ∧
      c.s.malloc_state.heap_start = 65536 ∧ c.s.malloc_state.heap_size = 1048576 ∧
      malloc 4 c.s 1048544 = some (some 65704, s) ∧
      c.s.malloc_state.heap_start ≤ 65704 - HEADER_SIZE ∧
      ¬ (65704 + 1048544 ≤ c.s.malloc_state.heap_start + c.s.malloc_state.heap_size) := by
  have h : (run 4 (fresh 65536) [.malloc 100, .malloc 200, .free 65568, .free 65704]).map
      (fun c => (c.s.malloc_state.heap_start, c.s.malloc_state.heap_size,
        (malloc 4 c.s 1048544).map Prod.fst))
      = some (65536, 1048576, some (some 65704)) := by decide!
  obtain ⟨c, hc, hv⟩ := of_map_eq_some h
  have h1 : c.s.malloc_state.heap_start = 65536 := congrArg Prod.fst hv
  have h2 : c.s.malloc_state.heap_size = 1048576 := congrArg (fun x => x.2.1) hv
  have h3 : (malloc 4 c.s 1048544).map Prod.fst = some (some 65704) :=
    congrArg (fun x => x.2.2) hv
  obtain ⟨s, hs⟩ := of_ret_eq h3
  refine ⟨c, s, hc, h1, h2, hs, ?_, ?_⟩
  · rw [h1]; decide
  · rw [h1, h2]; decide

/-- C3 (every successful allocation is large enough) fails on the code.  On the
freshly initialised allocator (one free block spanning the arena)
`malloc(2^64 - 1)` succeeds: `size + sizeof(block_header_t)` wraps to 31, is
raised to `MIN_BLOCK_SIZE`, and the block handed out has extent 40, that is 8
bytes of payload for a request of `2^64 - 1`. -/
theorem C3_wrapped_request_gets_eight_bytes :
    (fresh 65536).s.malloc_state.free_list = 65536 ∧
    get_size (fresh 65536).s.mem 65536 = HEAP_SIZE ∧
    get_is_free (fresh 65536).s.mem 65536 = 1 ∧
    get_next (fresh 65536).s.mem 65536 = NULL ∧
    ∃ s, malloc 1 (fresh 65536).s (2 ^ 64 - 1) = some (some 65568, s) ∧
      block_of s 65568 = (65536, 40) ∧
      ¬ (2 ^ 64 - 1 ≤ 40 - HEADER_SIZE) := by
  refine ⟨by decide!, by decide!, by decide!, by decide!, ?_⟩
  have h : (malloc 1 (fresh 65536).s (2 ^ 64 - 1)).map (fun r => (r.1, block_of r.2 65568))
      = some (some 65568, (65536, 40)) := by decide!
  obtain ⟨r, hr, hv⟩ := of_map_eq_some h
  have h1 : r.1 = some 65568 := congrArg Prod.fst hv
  have h2 : block_of r.2 65568 = (65536, 40) := congrArg Prod.snd hv
  refine ⟨r.2, ?_, h2, by decide⟩
  rw [hr, ← h1]

/-- C4 (allocate, release, allocate again returns the same address) fails on
the code.  After `p1 = malloc(100)`, `p2 = malloc(200)`, `free(p1)`, `free(p2)`,
`malloc(1048472)` the only free block has its header 64 bytes past the end of
the arena.  There `malloc(8)` returns a pointer, `free` of that pointer is
ignored by the range check (the state is unchanged), and `malloc(8)` then
returns NULL. -/
theorem C4_round_trip_lost :
    ∃ c s1 s2,
      run 4 (fresh 65536)
        [.malloc 100, .malloc 200, .free 65568, .free 65704, .malloc 1048472] = some c ∧
      malloc 4 c.s 8 = some (some 1114208, s1) ∧
      free s1 1114208 = s1 ∧
      malloc 4 (free s1 1114208) 8 = some (none, s2) := by
  have h : (run 4 (fresh 65536)
      [.malloc 100, .malloc 200, .free 65568, .free 65704, .malloc 1048472]).map
      (fun c => (malloc 4 c.s 8).map
        (fun r => (r.1, decide (free r.2 1114208 = r.2),
          (malloc 4 (free r.2 1114208) 8).map Prod.fst)))
      = some (some (some 1114208, true, some none)) := by decide!
  obtain ⟨c, hc, hv⟩ := of_map_eq_some h
  obtain ⟨r, hr, hw⟩ := of_map_eq_some hv
  have h1 : r.1 = some 1114208 := congrArg Prod.fst hw
  have h2 : decide (free r.2 1114208 = r.2) = true := congrArg (fun x => x.2.1) hw
  have h3 : (malloc 4 (free r.2 1114208) 8).map Prod.fst = some none :=
    congrArg (fun x => x.2.2) hw
  obtain ⟨s2, hs2⟩ := of_ret_eq h3
  refine ⟨c, r.2, s2, hc, ?_, of_decide_eq_true h2, hs2⟩
  rw [hr, ← h1]


/-! ## Claims about `realloc`, `calloc` and the boundary cases of `malloc` -/

/-- C5 (a growing `realloc` preserves the old contents) fails on the code.
After `p1 = malloc(8)`, `p2 = malloc(8)`, `free(p1)` the free block at offset 0
wrongly covers the live block of `p2` (offsets 40..79, payload capacity 8, all
payload bytes zero).  `realloc(p2, 40)` lets `malloc(40)` hand out offsets
0..71 and put the header of the remainder at offset 72, which is the payload
of `p2`, before `memcpy` runs.  The 8 bytes copied to the returned pointer are
that header's `size` field: byte 0 of the old payload was 0, byte 0 at the
returned pointer is 144. -/
theorem C5_growing_realloc_changes_contents :
    ∃ c s, run 4 (fresh 65536) [.malloc 8, .malloc 8, .free 65568] = some c ∧
      c.live = [65608] ∧ capacity c.s 65608 = 8 ∧
      realloc 4 c.s 65608 40 = some (some 65568, s) ∧
      0 < min (capacity c.s 65608) 40 ∧
      rd8 c.s.mem (65608 + 0) = 0 ∧ rd8 s.mem (65568 + 0) = 144 := by
  have h : (run 4 (fresh 65536) [.malloc 8, .malloc 8, .free 65568]).map
      (fun c => (c.live, capacity c.s 65608, rd8 c.s.mem (65608 + 0),
        (realloc 4 c.s 65608 40).map (fun r => (r.1, rd8 r.2.mem (65568 + 0)))))
      = some ([65608], 8, 0, some (some 65568, 144)) := by decide!
  obtain ⟨c, hc, hv⟩ := of_map_eq_some h
  obtain ⟨h1, hv⟩ := Prod.mk.inj hv
  obtain ⟨h2, hv⟩ := Prod.mk.inj hv
  obtain ⟨h3, h4⟩ := Prod.mk.inj hv
  obtain ⟨r, hr, hw⟩ := of_map_eq_some h4
  obtain ⟨h5, h6⟩ := Prod.mk.inj hw
  refine ⟨c, r.2, hc, h1, h2, ?_, ?_, h3, h6⟩
  · rw [hr, ← h5]
  · rw [h2]; decide

/-- C6: for a non-null `ptr` whose header holds extent `e`, and a new size with
`0 < size ≤ e - sizeof(block_header_t)`, `realloc(ptr, size)` returns `ptr`
itself and the whole state (memory and `malloc_state`) is unchanged. -/
theorem C6_realloc_within_capacity_is_identity (fuel : Nat) (s : State) (ptr size e : Nat)
    (hp : ptr ≠ NULL) (he : get_size s.mem (wsub ptr HEADER_SIZE) = e)
    (h0 : 0 < size) (hle : size ≤ e - HEADER_SIZE) :
    realloc fuel s ptr size = some (some ptr, s) := by
  have hlt := get_size_lt s.mem (wsub ptr HEADER_SIZE)
  rw [he, WORD_eq] at hlt
  have hcap : size ≤ wsub (get_size s.mem (wsub ptr HEADER_SIZE)) HEADER_SIZE := by
    rw [he]
    simp only [wsub, WORD_eq, HEADER_SIZE] at *
    omega
  have hs : size ≠ 0 := by omega
  unfold realloc
  rw [if_neg hp, if_neg hs]
  simp only
  rw [if_pos hcap]

/-- C6 at a concrete block: extent 136, new size 50. -/
theorem C6_realloc_within_capacity_witness :
    realloc 4 one_block 65568 50 = some (some 65568, one_block) :=
  C6_realloc_within_capacity_is_identity 4 one_block 65568 50 136
    (by decide) (by decide!) (by decide) (by decide)

/-- C7: on an initialised allocator, for a non-null `ptr` and `size > 0`,
`realloc(ptr, size)` returns NULL exactly when `size` exceeds the payload
capacity of the block of `ptr` and `malloc(size)` returns NULL in that state;
and whenever it returns NULL the state after the call is the state before it
(memory, hence every header and payload byte, and `malloc_state`, hence the
head of the chain). -/
theorem C7_realloc_fails_atomically (fuel : Nat) (s : State) (ptr size : Nat)
    (hinit : s.malloc_state.initialized ≠ 0) (hp : ptr ≠ NULL) (h0 : 0 < size) :
    (∀ s1, realloc fuel s ptr size = some (none, s1) ↔
      (capacity s ptr < size ∧ malloc fuel s size = some (none, s1))) ∧
    (∀ s1, realloc fuel s ptr size = some (none, s1) → s1 = s) := by
  have hs : size ≠ 0 := by omega
  have hmalloc : ∀ s1, malloc fuel s size = some (none, s1) → s1 = s := by
    intro s1 h
    unfold malloc at h
    simp only [if_neg hinit, if_neg hs] at h
    cases hf : find_free_block fuel s (request_size size) with
    | none => simp [hf] at h
    | some block =>
      simp only [hf] at h
      by_cases hb : block = NULL
      · simp [hb] at h
        exact h.symm
      · simp [hb] at h
  have hiff : ∀ s1, realloc fuel s ptr size = some (none, s1) ↔
      (capacity s ptr < size ∧ malloc fuel s size = some (none, s1)) := by
    intro s1
    unfold realloc capacity
    simp only [if_neg hp, if_neg hs]
    by_cases hc : size ≤ wsub (get_size s.mem (wsub ptr HEADER_SIZE)) HEADER_SIZE
    · simp only [if_pos hc]
      constructor
      · intro h
        simp at h
      · intro h
        omega
    · simp only [if_neg hc]
      cases hm : malloc fuel s size with
      | none => simp
      | some r =>
        obtain ⟨p, s2⟩ := r
        cases p with
        | none => simp; omega
        | some q => simp
  exact ⟨hiff, fun s1 h => hmalloc s1 ((hiff s1).mp h).2⟩

/-- C7 at a concrete block: capacity 104, new size two arenas, empty chain;
`realloc` does return NULL there and the state is unchanged. -/
theorem C7_realloc_fails_atomically_witness :
    realloc 4 one_block 65568 (2 * HEAP_SIZE) = some (none, one_block) ∧
    ∀ s1, realloc 4 one_block 65568 (2 * HEAP_SIZE) = some (none, s1) → s1 = one_block :=
  ⟨((C7_realloc_fails_atomically 4 one_block 65568 (2 * HEAP_SIZE)
      (by decide) (by decide) (by decide)).1 one_block).mpr ⟨by decide!, by decide!⟩,
   (C7_realloc_fails_atomically 4 one_block 65568 (2 * HEAP_SIZE)
      (by decide) (by decide) (by decide)).2⟩


/-- C8 (`calloc(count, size)` hands out `count * size` zeroed bytes inside the
block) fails on the code.  On the freshly initialised allocator
`calloc(2^61 + 1, 8)` computes `nmemb * size` modulo `2^64`, which is 8, and
returns a block of extent 40: 8 bytes of payload, zero-filled, for a request
of `2^64 + 8` bytes, which reach far beyond the end of that block. -/
theorem C8_calloc_product_wraps :
    (2 ^ 61 + 1 < WORD ∧ 8 < WORD) ∧
    ∃ s, calloc 1 (fresh 65536).s (2 ^ 61 + 1) 8 = some (some 65568, s) ∧
      block_of s 65568 = (65536, 40) ∧
      ¬ (65568 + (2 ^ 61 + 1) * 8 ≤ 65536 + 40) := by
  refine ⟨by decide, ?_⟩
  have h : (calloc 1 (fresh 65536).s (2 ^ 61 + 1) 8).map (fun r => (r.1, block_of r.2 65568))
      = some (some 65568, (65536, 40)) := by decide!
  obtain ⟨r, hr, hv⟩ := of_map_eq_some h
  obtain ⟨h1, h2⟩ := Prod.mk.inj hv
  refine ⟨r.2, ?_, h2, by decide⟩
  rw [hr, ← h1]

/-- C9 (a request of at least the arena length is rejected and changes no
block) fails on the code.  On the freshly initialised allocator
`malloc(2^64 - 32)` succeeds: `size + sizeof(block_header_t)` wraps to 0, is
raised to `MIN_BLOCK_SIZE`, the arena block is split and its first 40 bytes are
handed out; the extent stored at the start of the arena changes from 1048576
to 40. -/
theorem C9_wrapped_oversized_request_succeeds :
    (HEAP_SIZE ≤ 2 ^ 64 - 32 ∧ 2 ^ 64 - 32 < WORD) ∧
    get_size (fresh 65536).s.mem 65536 = 1048576 ∧
    ∃ s, malloc 1 (fresh 65536).s (2 ^ 64 - 32) = some (some 65568, s) ∧
      get_size s.mem 65536 = 40 := by
  refine ⟨by decide, by decide!, ?_⟩
  have h : (malloc 1 (fresh 65536).s (2 ^ 64 - 32)).map (fun r => (r.1, get_size r.2.mem 65536))
      = some (some 65568, 40) := by decide!
  obtain ⟨r, hr, hv⟩ := of_map_eq_some h
  obtain ⟨h1, h2⟩ := Prod.mk.inj hv
  refine ⟨r.2, ?_, h2⟩
  rw [hr, ← h1]

/-- C10 as stated fails when the backing region cannot be obtained (the `sbrk`
build, `sbrk` returning `(void*)-1`): `malloc(0)` on the uninitialised
allocator returns NULL, but `malloc_init` gives up after storing the failed
address; no block is created, the head stays null and the allocator stays
uninitialised. -/
theorem C10_no_block_when_region_missing :
    (boot SBRK_FAILED).malloc_state.initialized = 0 ∧
    malloc 0 (boot SBRK_FAILED) 0 =
      some (none, ⟨[], ⟨SBRK_FAILED, 0, NULL, 0⟩, SBRK_FAILED⟩) := by
  decide!

/-- C10, amended: `malloc(0)` returns NULL.  On an initialised allocator the
state is unchanged.  On an uninitialised allocator whose backing region is
obtained, the state after the call is the one `malloc_init` produces:
`malloc_state` describes the arena and its head points at the start of the
region, the header there has extent `HEAP_SIZE`, is free and has both links
null, and every byte outside that header is unchanged. -/
theorem C10_malloc_zero (fuel : Nat) (s : State)
    (hreg : s.malloc_state.initialized = 0 → s.region ≠ SBRK_FAILED) :
    ∃ s1, malloc fuel s 0 = some (none, s1) ∧
      (s.malloc_state.initialized ≠ 0 → s1 = s) ∧
      (s.malloc_state.initialized = 0 →
        s1.malloc_state = ⟨s.region, HEAP_SIZE, s.region, 1⟩ ∧
        s1.region = s.region ∧
        get_size s1.mem s.region = HEAP_SIZE ∧
        get_is_free s1.mem s.region = 1 ∧
        get_next s1.mem s.region = NULL ∧
        get_prev s1.mem s.region = NULL ∧
        ∀ a, (∀ i, i < HEADER_SIZE → padd s.region i ≠ a) → rd8 s1.mem a = rd8 s.mem a) := by
  by_cases h0 : s.malloc_state.initialized = 0
  · refine ⟨malloc_init s, ?_, fun h => absurd h0 h, fun _ => malloc_init_effect s h0 (hreg h0)⟩
    simp [malloc, h0]
  · refine ⟨s, ?_, fun _ => rfl, fun h => absurd h h0⟩
    simp [malloc, h0]

/-- C10 (amended) at two concrete states: the uninitialised machine with the
region at `65536`, and the initialised `one_block`. -/
theorem C10_malloc_zero_witness :
    (∃ s1, malloc 0 (boot 65536) 0 = some (none, s1) ∧
      s1.malloc_state = ⟨65536, HEAP_SIZE, 65536, 1⟩ ∧ get_size s1.mem 65536 = HEAP_SIZE ∧
      get_is_free s1.mem 65536 = 1 ∧ get_next s1.mem 65536 = NULL ∧
      get_prev s1.mem 65536 = NULL) ∧
    malloc 0 one_block 0 = some (none, one_block) := by
  constructor
  · obtain ⟨s1, h1, _, h3⟩ := C10_malloc_zero 0 (boot 65536) (fun _ => by decide)
    obtain ⟨a, _, c, d, e, f, _⟩ := h3 (by decide)
    exact ⟨s1, h1, a, c, d, e, f⟩
  · obtain ⟨s1, h1, h2, _⟩ := C10_malloc_zero 0 one_block (fun _ => by decide)
    rw [h1, h2 (by decide)]

/-! ## Claims about `free`, the search and the request size -/

/-- C11: `free(ptr)` returns the state it was given, unchanged in memory and
in `malloc_state`, whenever `ptr` is null, or the allocator is uninitialised,
or the recovered header address `ptr - sizeof(block_header_t)` lies below
`heap_start` or at or above `heap_start + heap_size`. -/
theorem C11_free_soft_fails (s : State) (ptr : Nat)
    (h : ptr = NULL ∨ s.malloc_state.initialized = 0 ∨
      wsub ptr HEADER_SIZE < s.malloc_state.heap_start ∨
      s.malloc_state.heap_start + s.malloc_state.heap_size ≤ wsub ptr HEADER_SIZE) :
    free s ptr = s := by
  unfold free
  by_cases hp : ptr = NULL
  · rw [if_pos hp]
  · rw [if_neg hp]
    by_cases hi : s.malloc_state.initialized = 0
    · rw [if_pos hi]
    · rw [if_neg hi]
      have hr : wsub ptr HEADER_SIZE < s.malloc_state.heap_start ∨
          wsub ptr HEADER_SIZE ≥ padd s.malloc_state.heap_start s.malloc_state.heap_size := by
        rcases h with h | h | h | h
        · exact absurd h hp
        · exact absurd h hi
        · exact Or.inl h
        · exact Or.inr (Nat.le_trans (Nat.mod_le _ _) h)
      simp only
      rw [if_pos hr]

/-- C11 at concrete inputs: a null pointer, an uninitialised allocator, a
header address below the arena and one at the end of the arena. -/
theorem C11_free_soft_fails_witness :
    free one_block 0 = one_block ∧
    free (boot 65536) 65568 = boot 65536 ∧
    free one_block 65567 = one_block ∧
    free one_block (65536 + HEAP_SIZE + 32) = one_block :=
  ⟨C11_free_soft_fails one_block 0 (Or.inl rfl),
   C11_free_soft_fails (boot 65536) 65568 (Or.inr (Or.inl rfl)),
   C11_free_soft_fails one_block 65567 (Or.inr (Or.inr (Or.inl (by decide)))),
   C11_free_soft_fails one_block (65536 + HEAP_SIZE + 32)
     (Or.inr (Or.inr (Or.inr (by decide))))⟩

/-- C15: when the blocks reachable from the head of the chain form the finite
null-terminated list `l`, `find_free_block(size)`, given a budget of at least
`l.length` iterations, returns the first block of `l` in traversal order that
is free and has `size` bytes or more, and NULL when there is none; it returns
NULL exactly when no block of `l` passes the test.  (The search only reads:
it returns a pointer and no state.) -/
theorem C15_find_first_fit (fuel : Nat) (s : State) (size : Nat) (l : List Nat)
    (hc : IsChain s.mem s.malloc_state.free_list l) (hf : l.length ≤ fuel) :
    find_free_block fuel s size = some ((l.find? (fits s.mem size)).getD NULL) ∧
    (find_free_block fuel s size = some NULL ↔ ∀ b ∈ l, fits s.mem size b = false) := by
  have key : ∀ (l : List Nat) (fuel head : Nat), IsChain s.mem head l → l.length ≤ fuel →
      find_free_block_from s.mem size fuel head
        = some ((l.find? (fits s.mem size)).getD NULL) ∧
      ((l.find? (fits s.mem size)).getD NULL = NULL ↔ ∀ b ∈ l, fits s.mem size b = false) := by
    intro l
    induction l with
    | nil =>
      intro fuel head hc _
      have hh : head = NULL := hc
      subst hh
      cases fuel <;> simp [find_free_block_from]
    | cons b l ih =>
      intro fuel head hc hf
      obtain ⟨hne, hb, hrest⟩ := hc
      subst hb
      cases fuel with
      | zero => simp at hf
      | succ fuel =>
        have hf2 : l.length ≤ fuel := by simpa using hf
        obtain ⟨ih1, ih2⟩ := ih fuel (get_next s.mem b) hrest hf2
        by_cases ht : get_is_free s.mem b ≠ 0 ∧ size ≤ get_size s.mem b
        · have hfit : fits s.mem size b = true := by simp [fits, ht]
          constructor
          · simp [find_free_block_from, hne, ht, List.find?, hfit]
          · simp only [List.find?, hfit, Option.getD_some]
            constructor
            · intro h; exact absurd h hne
            · intro h
              have := h b (List.mem_cons_self b l)
              rw [hfit] at this
              exact absurd this (by decide)
        · have hfit : fits s.mem size b = false := by simp [fits, ht]
          constructor
          · simp only [find_free_block_from, if_neg hne, if_neg ht, List.find?, hfit]
            exact ih1
          · simp only [List.find?, hfit]
            rw [ih2]
            constructor
            · intro h x hx
              rcases List.mem_cons.mp hx with hx | hx
              · rw [hx]; exact hfit
              · exact h x hx
            · intro h x hx
              exact h x (List.mem_cons_of_mem b hx)
  obtain ⟨k1, k2⟩ := key l fuel s.malloc_state.free_list hc hf
  unfold find_free_block
  refine ⟨k1, ?_⟩
  rw [k1, ← k2]
  constructor
  · intro h; exact Option.some.inj h
  · intro h; rw [h]

/-- C15 on the freshly initialised allocator: the chain is the single arena
block; a request of 40 finds it, a request of two arenas finds nothing. -/
theorem C15_find_first_fit_witness :
    find_free_block 1 (fresh 65536).s 40 = some 65536 ∧
    find_free_block 1 (fresh 65536).s (2 * HEAP_SIZE) = some NULL :=
  ⟨(C15_find_first_fit 1 (fresh 65536).s 40 [65536]
      (by decide!) (by decide)).1.trans (by decide!),
   (C15_find_first_fit 1 (fresh 65536).s (2 * HEAP_SIZE) [65536]
      (by decide!) (by decide)).1.trans (by decide!)⟩

/-- A block that is occupied and whose `next` is the block itself is never
left by the search, whatever the budget. -/
theorem find_free_block_from_self_loop (m : Mem) (size b : Nat) (hb : b ≠ NULL)
    (hfree : get_is_free m b = 0) (hnext : get_next m b = b) :
    ∀ fuel, find_free_block_from m size fuel b = none := by
  intro fuel
  induction fuel with
  | zero => simp [find_free_block_from, hb]
  | succ fuel ih => simp [find_free_block_from, hb, hfree, hnext, ih]

/-- C14 (`free` absorbs only the physical neighbour) fails on the code.  After
`p1 = malloc(100)`, `p2 = malloc(200)` the head of the chain is the free tail
block at offset 368 and the block of `p1` is at offset 0 with extent 136.
`free(p1)` links the block of `p1` in front of the head and `merge_blocks`
absorbs the head into it (its extent becomes 136 + 1048208, its `next` the
null `next` of the absorbed block), although the absorbed header is at offset
368 and not at offset 0 + 136, where the live block of `p2` starts. -/
theorem C14_free_absorbs_distant_block :
    ∃ c, run 4 (fresh 65536) [.malloc 100, .malloc 200] = some c ∧
      c.live = [65704, 65568] ∧
      block_of c.s 65568 = (65536, 136) ∧
      c.s.malloc_state.free_list = 65904 ∧
      get_is_free c.s.mem 65904 = 1 ∧ get_size c.s.mem 65904 = 1048208 ∧
      get_size (free c.s 65568).mem 65536 = 136 + 1048208 ∧
      get_next (free c.s 65568).mem 65536 = get_next c.s.mem 65904 ∧
      65904 ≠ 65536 + 136 := by
  have h : (run 4 (fresh 65536) [.malloc 100, .malloc 200]).map
      (fun c => (c.live, block_of c.s 65568, c.s.malloc_state.free_list,
        get_is_free c.s.mem 65904, get_size c.s.mem 65904))
      = some ([65704, 65568], (65536, 136), 65904, 1, 1048208) := by decide!
  have h' : (run 4 (fresh 65536) [.malloc 100, .malloc 200]).map
      (fun c => (get_size (free c.s 65568).mem 65536,
        get_next (free c.s 65568).mem 65536, get_next c.s.mem 65904))
      = some (136 + 1048208, 0, 0) := by decide!
  obtain ⟨c, hc, hv⟩ := of_map_eq_some h
  obtain ⟨h1, hv⟩ := Prod.mk.inj hv
  obtain ⟨h2, hv⟩ := Prod.mk.inj hv
  obtain ⟨h3, hv⟩ := Prod.mk.inj hv
  obtain ⟨h4, h5⟩ := Prod.mk.inj hv
  rw [hc] at h'
  obtain ⟨h6, hw⟩ := Prod.mk.inj (Option.some.inj h')
  obtain ⟨h7, h8⟩ := Prod.mk.inj hw
  exact ⟨c, hc, h1, h2, h3, h4, h5, h6, h7.trans h8.symm, by decide⟩

/-- C16 (the search always terminates in reachable states) fails on the code.
On the freshly initialised allocator `malloc(2^64 - 33)` computes
`total_size = 0` (the rounding `(total_size + 7) & ~7` wraps), so `split_block`
places the "new" header on the block itself: the block ends up occupied, still
at the head of the chain, with `next` pointing to itself.  From that state
`find_free_block` never leaves the block: `malloc(size)` does not return for
any `size > 0`, whatever the iteration budget. -/
theorem C16_search_loops_forever :
    ∃ s, run 1 (fresh 65536) [.malloc (2 ^ 64 - 33)] = some ⟨s, [65568]⟩ ∧
      s.malloc_state.free_list = 65536 ∧
      get_is_free s.mem 65536 = 0 ∧ get_next s.mem 65536 = 65536 ∧
      ∀ fuel size, size ≠ 0 → malloc fuel s size = none := by
  have h : (run 1 (fresh 65536) [.malloc (2 ^ 64 - 33)]).map
      (fun c => (c.live, c.s.malloc_state.free_list, c.s.malloc_state.initialized,
        get_is_free c.s.mem 65536, get_next c.s.mem 65536))
      = some ([65568], 65536, 1, 0, 65536) := by decide!
  obtain ⟨c, hc, hv⟩ := of_map_eq_some h
  obtain ⟨h1, hv⟩ := Prod.mk.inj hv
  obtain ⟨h2, hv⟩ := Prod.mk.inj hv
  obtain ⟨h3, hv⟩ := Prod.mk.inj hv
  obtain ⟨h4, h5⟩ := Prod.mk.inj hv
  obtain ⟨s, live⟩ := c
  simp only at h1 h2 h3 h4 h5
  subst h1
  refine ⟨s, hc, h2, h4, h5, ?_⟩
  intro fuel size hsz
  have hinit : ¬ s.malloc_state.initialized = 0 := by rw [h3]; decide
  have hloop := find_free_block_from_self_loop s.mem (request_size size) 65536
    (by decide) h4 h5 fuel
  unfold malloc
  simp only [if_neg hinit, if_neg hsz]
  unfold find_free_block
  rw [h2, hloop]

/-- C18 (the request size is `roundUp8(size + headerSize)` floored at
`MIN_BLOCK_SIZE`, hence a multiple of 8, at least `MIN_BLOCK_SIZE` and at least
`size + headerSize`) fails on the code for sizes near `2^64`.  For
`size = 2^64 - 33` the sum is `2^64 - 1` and the rounding wraps to 0, below
`MIN_BLOCK_SIZE`; for `size = 2^64 - 1` the sum wraps to 31 and the result is
40, far below `size + 32`. -/
theorem C18_request_size_wraps :
    (0 < 2 ^ 64 - 33 ∧ 2 ^ 64 - 33 < WORD ∧ 2 ^ 64 - 1 < WORD) ∧
    request_size (2 ^ 64 - 33) = 0 ∧
    ¬ (MIN_BLOCK_SIZE ≤ request_size (2 ^ 64 - 33)) ∧
    request_size (2 ^ 64 - 1) = 40 ∧
    ¬ (2 ^ 64 - 1 + HEADER_SIZE ≤ request_size (2 ^ 64 - 1)) := by
  decide!

/-! ## `calloc` against `malloc` -/

theorem rd8_memset_of_ne (n : Nat) (m : Mem) (p c a : Nat) (h : ∀ i, i < n → padd p i ≠ a) :
    rd8 (memset m p c n) a = rd8 m a := by
  induction n with
  | zero => rfl
  | succ n ih =>
    have ha : ¬ a = padd p n := fun e => h n (Nat.lt_succ_self n) e.symm
    unfold memset
    rw [rd8_wr8, if_neg ha]
    exact ih (fun i hi => h i (Nat.lt_succ_of_lt hi))

theorem rd8_memset_at (n : Nat) (m : Mem) (p c i : Nat) (hi : i < n) :
    rd8 (memset m p c n) (padd p i) = c % 256 := by
  induction n with
  | zero => omega
  | succ n ih =>
    unfold memset
    rw [rd8_wr8]
    by_cases he : padd p i = padd p n
    · rw [if_pos he]
    · rw [if_neg he]
      have hin : i ≠ n := fun e => he (by rw [e])
      exact ih (by omega)

/-- C12 as stated fails on the code in a state where a header lies inside the
payload that `calloc` zero-fills.  After `p1 = malloc(8)`, `p2 = malloc(8)`,
`free(p1)` the free block at offset 0 covers the live block of `p2`, whose
header is at offset 40.  `malloc(40)` and `calloc(1, 40)` both return `p1`
with the same `malloc_state`, but `malloc` leaves the header of `p2` intact
(extent 40) while `memset` in `calloc` clears it (extent 0). -/
theorem C12_calloc_clears_inner_header :
    ∃ c s1 s2, run 4 (fresh 65536) [.malloc 8, .malloc 8, .free 65568] = some c ∧
      c.live = [65608] ∧
      malloc 4 c.s ((1 * 40) % WORD) = some (some 65568, s1) ∧
      calloc 4 c.s 1 40 = some (some 65568, s2) ∧
      block_of s1 65608 = (65576, 40) ∧ block_of s2 65608 = (65576, 0) := by
  have h : (run 4 (fresh 65536) [.malloc 8, .malloc 8, .free 65568]).map
      (fun c => (c.live,
        (malloc 4 c.s ((1 * 40) % WORD)).map (fun r => (r.1, block_of r.2 65608))))
      = some ([65608], some (some 65568, (65576, 40))) := by decide!
  have h' : (run 4 (fresh 65536) [.malloc 8, .malloc 8, .free 65568]).map
      (fun c => (calloc 4 c.s 1 40).map (fun r => (r.1, block_of r.2 65608)))
      = some (some (some 65568, (65576, 0))) := by decide!
  obtain ⟨c, hc, hv⟩ := of_map_eq_some h
  obtain ⟨h1, h2⟩ := Prod.mk.inj hv
  rw [hc] at h'
  have h3 := Option.some.inj h'
  obtain ⟨r1, hr1, hw1⟩ := of_map_eq_some h2
  obtain ⟨r2, hr2, hw2⟩ := of_map_eq_some h3
  obtain ⟨h4, h5⟩ := Prod.mk.inj hw1
  obtain ⟨h6, h7⟩ := Prod.mk.inj hw2
  refine ⟨c, r1.2, r2.2, hc, h1, ?_, ?_, h5, h7⟩
  · rw [hr1, ← h4]
  · rw [hr2, ← h6]

/-- C12, amended: `calloc(nmemb, size)` does what `malloc` does on the product
reduced modulo `2^64`, followed by a zero-fill.  If that `malloc` call does not
return, neither does `calloc`; if it returns NULL, `calloc` returns NULL with
the same state; if it returns `p`, `calloc` returns `p` with the same
`malloc_state`, the product-many bytes from `p` on are zero, and every other
byte of memory is as `malloc` left it.  When the product wraps to 0 the result
is NULL.  The call `calloc(2^61 + 1, 8)` on the freshly initialised allocator
succeeds with a block whose extent is below the product `nmemb * size`. -/
theorem C12_calloc_is_malloc_of_wrapped_product (fuel : Nat) (s : State) (nmemb size : Nat) :
    (malloc fuel s ((nmemb * size) % WORD) = none → calloc fuel s nmemb size = none) ∧
    (∀ s1, malloc fuel s ((nmemb * size) % WORD) = some (none, s1) →
      calloc fuel s nmemb size = some (none, s1)) ∧
    (∀ p s1, malloc fuel s ((nmemb * size) % WORD) = some (some p, s1) →
      ∃ s2, calloc fuel s nmemb size = some (some p, s2) ∧
        s2.malloc_state = s1.malloc_state ∧ s2.region = s1.region ∧
        (∀ i, i < (nmemb * size) % WORD → rd8 s2.mem (padd p i) = 0) ∧
        (∀ a, (∀ i, i < (nmemb * size) % WORD → padd p i ≠ a) →
          rd8 s2.mem a = rd8 s1.mem a)) ∧
    ((nmemb * size) % WORD = 0 → ∃ s1, calloc fuel s nmemb size = some (none, s1)) ∧
    (∃ s2, calloc 1 (fresh 65536).s (2 ^ 61 + 1) 8 = some (some 65568, s2) ∧
      get_size s2.mem (wsub 65568 HEADER_SIZE) < (2 ^ 61 + 1) * 8) := by
  refine ⟨?_, ?_, ?_, ?_, ?_⟩
  · intro h
    simp [calloc, h]
  · intro s1 h
    simp [calloc, h]
  · intro p s1 h
    refine ⟨{ s1 with mem := memset s1.mem p 0 ((nmemb * size) % WORD) }, ?_, rfl, rfl, ?_, ?_⟩
    · simp [calloc, h]
    · intro i hi
      exact rd8_memset_at _ s1.mem p 0 i hi
    · intro a ha
      exact rd8_memset_of_ne _ s1.mem p 0 a ha
  · intro h0
    by_cases hi : s.malloc_state.initialized = 0
    · exact ⟨malloc_init s, by simp [calloc, h0, malloc, hi]⟩
    · exact ⟨s, by simp [calloc, h0, malloc, hi]⟩
  · have h : (calloc 1 (fresh 65536).s (2 ^ 61 + 1) 8).map
        (fun r => (r.1, get_size r.2.mem (wsub 65568 HEADER_SIZE)))
        = some (some 65568, 40) := by decide!
    obtain ⟨r, hr, hv⟩ := of_map_eq_some h
    obtain ⟨h1, h2⟩ := Prod.mk.inj hv
    refine ⟨r.2, ?_, ?_⟩
    · rw [hr, ← h1]
    · rw [h2]; decide

/-- C12 (amended) on the freshly initialised allocator: `calloc(3, 8)` returns
the pointer `malloc(24)` returns and its 24 bytes are zero; `calloc(2^63, 2)`,
whose product wraps to 0, returns NULL. -/
theorem C12_calloc_is_malloc_of_wrapped_product_witness :
    (∃ s2, calloc 1 (fresh 65536).s 3 8 = some (some 65568, s2) ∧
      ∀ i, i < 24 → rd8 s2.mem (padd 65568 i) = 0) ∧
    (∃ s1, calloc 1 (fresh 65536).s (2 ^ 63) 2 = some (none, s1)) := by
  constructor
  · have hm : (malloc 1 (fresh 65536).s ((3 * 8) % WORD)).map Prod.fst = some (some 65568) := by
      decide!
    obtain ⟨s1, hs1⟩ := of_ret_eq hm
    obtain ⟨s2, h1, _, _, h4, _⟩ :=
      (C12_calloc_is_malloc_of_wrapped_product 1 (fresh 65536).s 3 8).2.2.1 65568 s1 hs1
    exact ⟨s2, h1, h4⟩
  · exact (C12_calloc_is_malloc_of_wrapped_product 1 (fresh 65536).s (2 ^ 63) 2).2.2.2.1
      (by decide)

/-! ## The fragmentation scenario, step by step -/

theorem run_cons_of_step {fuel : Nat} {c c1 : Client} {call : Call} (calls : List Call)
    (h : c.step fuel call = some c1) : run fuel c (call :: calls) = run fuel c1 calls := by
  simp [run, h]

theorem frag_start : fresh 65536 = frag_00 := by decide!

theorem frag_step_00 : frag_00.step 20 (.malloc 100) = some frag_01 := by decide!

theorem frag_step_01 : frag_01.step 20 (.malloc 200) = some frag_02 := by decide!

theorem frag_step_02 : frag_02.step 20 (.free 65568) = some frag_03 := by decide!

theorem frag_step_03 : frag_03.step 20 (.free 65704) = some frag_04 := by decide!

theorem frag_step_04 : frag_04.step 20 (.malloc 50) = some frag_05 := by decide!

theorem frag_step_05 : frag_05.step 20 (.malloc 50) = some frag_06 := by decide!

theorem frag_step_06 : frag_06.step 20 (.malloc 50) = some frag_07 := by decide!

theorem frag_step_07 : frag_07.step 20 (.malloc 50) = some frag_08 := by decide!

theorem frag_step_08 : frag_08.step 20 (.malloc 50) = some frag_09 := by decide!

theorem frag_step_09 : frag_09.step 20 (.malloc 50) = some frag_10 := by decide!

theorem frag_step_10 : frag_10.step 20 (.malloc 50) = some frag_11 := by decide!

theorem frag_step_11 : frag_11.step 20 (.malloc 50) = some frag_12 := by decide!

theorem frag_step_12 : frag_12.step 20 (.malloc 50) = some frag_13 := by decide!

theorem frag_step_13 : frag_13.step 20 (.malloc 50) = some frag_14 := by decide!

theorem frag_step_14 : frag_14.step 20 (.free 65704) = some frag_15 := by decide!

theorem frag_step_15 : frag_15.step 20 (.free 65880) = some frag_16 := by decide!

theorem frag_step_16 : frag_16.step 20 (.free 66056) = some frag_17 := by decide!

theorem frag_step_17 : frag_17.step 20 (.free 66232) = some frag_18 := by decide!

theorem frag_step_18 : frag_18.step 20 (.free 66408) = some frag_19 := by decide!

theorem frag_last : malloc 20 frag_19.s 200 = some (some 66408, frag_20.s) := by decide!

/-- C13: on the freshly initialised arena of 1,048,576 bytes (at address
`65536`), `malloc(100)` and `malloc(200)` return `p1 = 65568` and
`p2 = 65704`; after `free(p1)`, `free(p2)` the ten calls `malloc(50)` all
succeed (they return `65704 + 88 * i` for `i = 0..9`, listed newest first);
after releasing the blocks of index 0, 2, 4, 6, 8 the call `malloc(200)`
returns a non-null pointer. -/
theorem C13_fragmentation_scenario :
    ∃ c2 c4 c14 c19 s,
      run 20 (fresh 65536) [.malloc 100, .malloc 200] = some c2 ∧
      c2.live = [65704, 65568] ∧
      run 20 c2 [.free 65568, .free 65704] = some c4 ∧
      c4.live = [] ∧
      run 20 c4 [.malloc 50, .malloc 50, .malloc 50, .malloc 50, .malloc 50,
        .malloc 50, .malloc 50, .malloc 50, .malloc 50, .malloc 50] = some c14 ∧
      c14.live = [66496, 66408, 66320, 66232, 66144, 66056, 65968, 65880, 65792, 65704] ∧
      run 20 c14 [.free 65704, .free 65880, .free 66056, .free 66232, .free 66408]
        = some c19 ∧
      malloc 20 c19.s 200 = some (some 66408, s) := by
  refine ⟨frag_02, frag_04, frag_14, frag_19, frag_20.s, ?_, rfl, ?_, rfl, ?_, rfl, ?_, frag_last⟩
  · rw [frag_start, run_cons_of_step _ frag_step_00, run_cons_of_step _ frag_step_01]
    rfl
  · rw [run_cons_of_step _ frag_step_02, run_cons_of_step _ frag_step_03]
    rfl
  · rw [run_cons_of_step _ frag_step_04, run_cons_of_step _ frag_step_05,
      run_cons_of_step _ frag_step_06, run_cons_of_step _ frag_step_07,
      run_cons_of_step _ frag_step_08, run_cons_of_step _ frag_step_09,
      run_cons_of_step _ frag_step_10, run_cons_of_step _ frag_step_11,
      run_cons_of_step _ frag_step_12, run_cons_of_step _ frag_step_13]
    rfl
  · rw [run_cons_of_step _ frag_step_14, run_cons_of_step _ frag_step_15,
      run_cons_of_step _ frag_step_16, run_cons_of_step _ frag_step_17,
      run_cons_of_step _ frag_step_18]
    rfl

/-! ## Headers at symbolic addresses -/

theorem padd_padd (a i j : Nat) : padd (padd a i) j = padd a (i + j) := by
  unfold padd
  rw [Nat.mod_add_mod, Nat.add_assoc]

theorem padd_lt (a i : Nat) : padd a i < WORD :=
  Nat.mod_lt _ (by rw [WORD_eq]; omega)

theorem get_next_lt (m : Mem) (block : Nat) : get_next m block < WORD := by
  have h := rdN_lt 8 m (padd block 16)
  have h2 : (256 : Nat) ^ 8 = WORD := by norm_num [WORD]
  unfold get_next
  omega

theorem rd8_wrN_frame (n : Nat) (m : Mem) (a v x : Nat) (h : ∀ i, i < n → padd a i ≠ x) :
    rd8 (wrN n m a v) x = rd8 m x :=
  rd8_wrN_of_ne n m a v x h

/-- The memory `split_block` produces when it splits, with the old
`block->next` given as `o`. -/
theorem split_block_split (m : Mem) (b r : Nat) (hr : HEADER_SIZE ≤ r)
    (hrW : r + MIN_BLOCK_SIZE < WORD) (he : r + MIN_BLOCK_SIZE ≤ get_size m b) :
    split_block m b r =
      (if get_next m b ≠ NULL then
        set_prev (set_next (set_size (set_prev (set_next (set_is_free
          (set_size m (padd b r) (wsub (get_size m b) r)) (padd b r) 1)
          (padd b r) (get_next m b)) (padd b r) b) b r) b (padd b r))
          (get_next m b) (padd b r)
      else
        set_next (set_size (set_prev (set_next (set_is_free
          (set_size m (padd b r) (wsub (get_size m b) r)) (padd b r) 1)
          (padd b r) (get_next m b)) (padd b r) b) b r) b (padd b r)) := by
  have hW : (8 : Nat) ≤ WORD := by rw [WORD_eq]; omega
  have hcond : ¬ get_size m b < (r + MIN_BLOCK_SIZE) % WORD := by
    rw [Nat.mod_eq_of_lt hrW]; omega
  simp only [HEADER_SIZE, MIN_BLOCK_SIZE, WORD_eq] at hr hrW
  have h1 : get_next (set_is_free (set_size m (padd b r) (wsub (get_size m b) r)) (padd b r) 1) b
      = get_next m b := by
    unfold get_next set_is_free set_size
    rw [rdN_wrN_of_disjoint, rdN_wrN_of_disjoint]
    all_goals
      intro i hi j hj
      simp only [padd, WORD_eq]
      omega
  have h2 : get_next (set_next (set_size (set_prev (set_next (set_is_free
      (set_size m (padd b r) (wsub (get_size m b) r)) (padd b r) 1)
      (padd b r) (get_next m b)) (padd b r) b) b r) b (padd b r)) (padd b r) = get_next m b := by
    unfold get_next set_next set_size set_prev set_is_free
    rw [rdN_wrN_of_disjoint, rdN_wrN_of_disjoint, rdN_wrN_of_disjoint,
      rdN_wrN_same _ _ _ _ hW]
    · exact Nat.mod_eq_of_lt (rdN_lt 8 m _)
    all_goals
      intro i hi j hj
      simp only [padd, WORD_eq]
      omega
  unfold split_block
  rw [if_neg hcond]
  simp only [h1, h2]

/-- The fields of the two blocks right after the six header writes of
`split_block`, before the fix-up of the old `next`. -/
theorem split_block_core (m : Mem) (b r o : Nat) (hb : b < WORD) (hr : HEADER_SIZE ≤ r)
    (hrW : r + MIN_BLOCK_SIZE < WORD) (ho : o < WORD) (he : r + MIN_BLOCK_SIZE ≤ get_size m b) :
    get_size (set_next (set_size (set_prev (set_next (set_is_free
        (set_size m (padd b r) (wsub (get_size m b) r)) (padd b r) 1)
        (padd b r) o) (padd b r) b) b r) b (padd b r)) b = r ∧
    get_next (set_next (set_size (set_prev (set_next (set_is_free
        (set_size m (padd b r) (wsub (get_size m b) r)) (padd b r) 1)
        (padd b r) o) (padd b r) b) b r) b (padd b r)) b = padd b r ∧
    get_size (set_next (set_size (set_prev (set_next (set_is_free
        (set_size m (padd b r) (wsub (get_size m b) r)) (padd b r) 1)
        (padd b r) o) (padd b r) b) b r) b (padd b r)) (padd b r) = get_size m b - r ∧
    get_is_free (set_next (set_size (set_prev (set_next (set_is_free
        (set_size m (padd b r) (wsub (get_size m b) r)) (padd b r) 1)
        (padd b r) o) (padd b r) b) b r) b (padd b r)) (padd b r) = 1 ∧
    get_prev (set_next (set_size (set_prev (set_next (set_is_free
        (set_size m (padd b r) (wsub (get_size m b) r)) (padd b r) 1)
        (padd b r) o) (padd b r) b) b r) b (padd b r)) (padd b r) = b ∧
    get_next (set_next (set_size (set_prev (set_next (set_is_free
        (set_size m (padd b r) (wsub (get_size m b) r)) (padd b r) 1)
        (padd b r) o) (padd b r) b) b r) b (padd b r)) (padd b r) = o ∧
    get_is_free (set_next (set_size (set_prev (set_next (set_is_free
        (set_size m (padd b r) (wsub (get_size m b) r)) (padd b r) 1)
        (padd b r) o) (padd b r) b) b r) b (padd b r)) b = get_is_free m b ∧
    get_prev (set_next (set_size (set_prev (set_next (set_is_free
        (set_size m (padd b r) (wsub (get_size m b) r)) (padd b r) 1)
        (padd b r) o) (padd b r) b) b r) b (padd b r)) b = get_prev m b := by
  have hW : (8 : Nat) ≤ WORD := by rw [WORD_eq]; omega
  have hW4 : (4 : Nat) ≤ WORD := by rw [WORD_eq]; omega
  have h256 : (256 : Nat) ^ 8 = 18446744073709551616 := by norm_num
  have hlt := get_size_lt m b
  have hn := padd_lt b r
  simp only [HEADER_SIZE, MIN_BLOCK_SIZE, WORD_eq] at hr hrW hb ho hlt hn he
  refine ⟨?_, ?_, ?_, ?_, ?_, ?_, ?_, ?_⟩
  · unfold get_size set_next set_size set_prev set_is_free
    rw [rdN_wrN_of_disjoint, rdN_wrN_same _ _ _ _ hW, h256]
    · exact Nat.mod_eq_of_lt (by omega)
    all_goals
      intro i hi j hj
      simp only [padd, WORD_eq]
      omega
  · unfold get_next set_next set_size set_prev set_is_free
    rw [rdN_wrN_same _ _ _ _ hW, h256]
    exact Nat.mod_eq_of_lt hn
  · unfold get_size set_next set_size set_prev set_is_free
    rw [rdN_wrN_of_disjoint, rdN_wrN_of_disjoint, rdN_wrN_of_disjoint, rdN_wrN_of_disjoint,
      rdN_wrN_of_disjoint, rdN_wrN_same _ _ _ _ hW, h256]
    · have hge : r ≤ rdN 8 m b := by
        have : get_size m b = rdN 8 m b := rfl
        omega
      have hl : rdN 8 m b < 18446744073709551616 := hlt
      simp only [wsub, WORD_eq]
      omega
    all_goals
      intro i hi j hj
      simp only [padd, WORD_eq]
      omega
  · unfold get_is_free set_next set_size set_prev set_is_free
    rw [rdN_wrN_of_disjoint, rdN_wrN_of_disjoint, rdN_wrN_of_disjoint, rdN_wrN_of_disjoint,
      rdN_wrN_same _ _ _ _ hW4]
    · norm_num
    all_goals
      intro i hi j hj
      simp only [padd, WORD_eq]
      omega
  · unfold get_prev set_next set_size set_prev set_is_free
    rw [rdN_wrN_of_disjoint, rdN_wrN_of_disjoint, rdN_wrN_same _ _ _ _ hW, h256]
    · exact Nat.mod_eq_of_lt hb
    all_goals
      intro i hi j hj
      simp only [padd, WORD_eq]
      omega
  · unfold get_next set_next set_size set_prev set_is_free
    rw [rdN_wrN_of_disjoint, rdN_wrN_of_disjoint, rdN_wrN_of_disjoint,
      rdN_wrN_same _ _ _ _ hW, h256]
    · exact Nat.mod_eq_of_lt ho
    all_goals
      intro i hi j hj
      simp only [padd, WORD_eq]
      omega
  · unfold get_is_free set_next set_size set_prev set_is_free
    rw [rdN_wrN_of_disjoint, rdN_wrN_of_disjoint, rdN_wrN_of_disjoint, rdN_wrN_of_disjoint,
      rdN_wrN_of_disjoint, rdN_wrN_of_disjoint]
    all_goals
      intro i hi j hj
      simp only [padd, WORD_eq]
      omega
  · unfold get_prev set_next set_size set_prev set_is_free
    rw [rdN_wrN_of_disjoint, rdN_wrN_of_disjoint, rdN_wrN_of_disjoint, rdN_wrN_of_disjoint,
      rdN_wrN_of_disjoint, rdN_wrN_of_disjoint]
    all_goals
      intro i hi j hj
      simp only [padd, WORD_eq]
      omega

/-- C17 as stated fails at three kinds of input.
(1) `requiredSize = 0`, the value `malloc(2^64 - 33)` passes on: on the freshly
initialised arena block (extent 1048576, `prev` null) `split_block(block, 0)`
does split, but the "new" header is the header of the block itself, so
afterwards the extent at `block + 0` is 0 and not `e - r = 1048576`, and
`block->prev` is the block itself.
(2) A block whose `next` is the block itself (extent 1000, `prev` null), split
at 136: the fix-up `new_block->next->prev = new_block` writes `block->prev`,
which does not stay unchanged.
(3) `requiredSize = 2^64 - 8` on a block of extent 1000: `e < r + 40` holds, yet
`size + MIN_BLOCK_SIZE` wraps to 32 in the code, the block is split and the
memory changes. -/
theorem C17_split_block_violations :
    (get_size (fresh 65536).s.mem 65536 = 1048576 ∧
      get_prev (fresh 65536).s.mem 65536 = NULL ∧
      ¬ (get_size (fresh 65536).s.mem 65536 < 0 + MIN_BLOCK_SIZE) ∧
      padd 65536 0 = 65536 ∧
      get_size (split_block (fresh 65536).s.mem 65536 0) (padd 65536 0) = 0 ∧
      get_size (split_block (fresh 65536).s.mem 65536 0) (padd 65536 0) ≠ 1048576 - 0 ∧
      get_prev (split_block (fresh 65536).s.mem 65536 0) 65536 = 65536) ∧
    (get_size self_linked 65536 = 1000 ∧ get_next self_linked 65536 = 65536 ∧
      get_prev self_linked 65536 = NULL ∧
      ¬ (get_size self_linked 65536 < 136 + MIN_BLOCK_SIZE) ∧
      get_prev (split_block self_linked 65536 136) 65536 = 65672) ∧
    (get_size linked_block 65536 = 1000 ∧
      get_size linked_block 65536 < (2 ^ 64 - 8) + MIN_BLOCK_SIZE ∧ 2 ^ 64 - 8 < WORD ∧
      split_block linked_block 65536 (2 ^ 64 - 8) ≠ linked_block) := by
  decide!

/-- C17, amended: for a block `b` with extent `e = block->size` and a
required size `r` with `sizeof(block_header_t) ≤ r` and
`r + MIN_BLOCK_SIZE < 2^64`, where the `prev` field of the old `block->next`
(when non-null) overlaps neither the header of `b` nor the 32 bytes at
`b + r`: if `e < r + MIN_BLOCK_SIZE` the memory is unchanged; otherwise
afterwards `b.size = r`, `b.next = n` with `n = b + r`, `n.size = e - r` which
is at least `MIN_BLOCK_SIZE`, `n` is free, `n.prev = b`, `n.next` is the old
`b.next`, whose `prev` (when it is non-null) is `n`, the two extents sum to
`e`, `b.is_free` and `b.prev` are unchanged, and so is every byte outside
`b.size`, `b.next`, the header at `n` and that one `prev` field. -/
theorem C17_split_block_postcondition (m : Mem) (b r : Nat) (hb : b < WORD)
    (hr : HEADER_SIZE ≤ r) (hrW : r + MIN_BLOCK_SIZE < WORD)
    (hob : get_next m b ≠ NULL → disjoint_bytes (padd (get_next m b) 24) 8 b 32)
    (hon : get_next m b ≠ NULL → disjoint_bytes (padd (get_next m b) 24) 8 (padd b r) 32) :
    (get_size m b < r + MIN_BLOCK_SIZE → split_block m b r = m) ∧
    (r + MIN_BLOCK_SIZE ≤ get_size m b →
      get_size (split_block m b r) b = r ∧
      get_next (split_block m b r) b = padd b r ∧
      get_size (split_block m b r) (padd b r) = get_size m b - r ∧
      MIN_BLOCK_SIZE ≤ get_size m b - r ∧
      get_is_free (split_block m b r) (padd b r) = 1 ∧
      get_prev (split_block m b r) (padd b r) = b ∧
      get_next (split_block m b r) (padd b r) = get_next m b ∧
      (get_next m b ≠ NULL → get_prev (split_block m b r) (get_next m b) = padd b r) ∧
      get_size (split_block m b r) b + get_size (split_block m b r) (padd b r) = get_size m b ∧
      get_is_free (split_block m b r) b = get_is_free m b ∧
      get_prev (split_block m b r) b = get_prev m b ∧
      (∀ a, (∀ i, i < 8 → padd b i ≠ a) → (∀ i, i < 8 → padd b (16 + i) ≠ a) →
        (∀ i, i < 32 → padd b (r + i) ≠ a) →
        (get_next m b ≠ NULL → ∀ i, i < 8 → padd (get_next m b) (24 + i) ≠ a) →
        rd8 (split_block m b r) a = rd8 m a)) := by
  have hW : (8 : Nat) ≤ WORD := by rw [WORD_eq]; omega
  have h256 : (256 : Nat) ^ 8 = 18446744073709551616 := by norm_num
  constructor
  · intro hlt
    have hcond : get_size m b < (r + MIN_BLOCK_SIZE) % WORD := by
      rw [Nat.mod_eq_of_lt hrW]; exact hlt
    unfold split_block
    rw [if_pos hcond]
  · intro he
    obtain ⟨c1, c2, c3, c4, c5, c6, c7, c8⟩ :=
      split_block_core m b r (get_next m b) hb hr hrW (get_next_lt m b) he
    have hframe : ∀ a, (∀ i, i < 8 → padd b i ≠ a) → (∀ i, i < 8 → padd b (16 + i) ≠ a) →
        (∀ i, i < 32 → padd b (r + i) ≠ a) →
        rd8 (set_next (set_size (set_prev (set_next (set_is_free
          (set_size m (padd b r) (wsub (get_size m b) r)) (padd b r) 1)
          (padd b r) (get_next m b)) (padd b r) b) b r) b (padd b r)) a = rd8 m a := by
      intro a h0 h16 hn
      unfold set_next set_size set_prev set_is_free
      rw [rd8_wrN_of_ne, rd8_wrN_of_ne, rd8_wrN_of_ne, rd8_wrN_of_ne, rd8_wrN_of_ne,
        rd8_wrN_of_ne]
      · intro i hi; rw [padd_padd]; exact hn i (by omega)
      · intro i hi; rw [padd_padd, padd_padd]; exact hn (8 + i) (by omega)
      · intro i hi; rw [padd_padd, padd_padd]; exact hn (16 + i) (by omega)
      · intro i hi; rw [padd_padd, padd_padd]; exact hn (24 + i) (by omega)
      · exact h0
      · intro i hi; rw [padd_padd]; exact h16 i hi
    have hmin : MIN_BLOCK_SIZE ≤ get_size m b - r := by omega
    rw [split_block_split m b r hr hrW he]
    by_cases ho : get_next m b ≠ NULL
    · have hob1 := hob ho
      have hon1 := hon ho
      rw [if_pos ho]
      have lift : ∀ (w x : Nat) (M : Mem), disjoint_bytes (padd (get_next m b) 24) 8 x w →
          rdN w (set_prev M (get_next m b) (padd b r)) x = rdN w M x := by
        intro w x M h
        unfold set_prev
        exact rdN_wrN_of_disjoint 8 w M _ _ x h
      have db0 : disjoint_bytes (padd (get_next m b) 24) 8 b 8 :=
        fun i hi j hj => hob1 i hi j (by omega)
      have db8 : disjoint_bytes (padd (get_next m b) 24) 8 (padd b 8) 4 := by
        intro i hi j hj; rw [padd_padd b]; exact hob1 i hi (8 + j) (by omega)
      have db16 : disjoint_bytes (padd (get_next m b) 24) 8 (padd b 16) 8 := by
        intro i hi j hj; rw [padd_padd b]; exact hob1 i hi (16 + j) (by omega)
      have db24 : disjoint_bytes (padd (get_next m b) 24) 8 (padd b 24) 8 := by
        intro i hi j hj; rw [padd_padd b]; exact hob1 i hi (24 + j) (by omega)
      have dn0 : disjoint_bytes (padd (get_next m b) 24) 8 (padd b r) 8 :=
        fun i hi j hj => hon1 i hi j (by omega)
      have dn8 : disjoint_bytes (padd (get_next m b) 24) 8 (padd (padd b r) 8) 4 := by
        intro i hi j hj; rw [padd_padd (padd b r)]; exact hon1 i hi (8 + j) (by omega)
      have dn16 : disjoint_bytes (padd (get_next m b) 24) 8 (padd (padd b r) 16) 8 := by
        intro i hi j hj; rw [padd_padd (padd b r)]; exact hon1 i hi (16 + j) (by omega)
      have dn24 : disjoint_bytes (padd (get_next m b) 24) 8 (padd (padd b r) 24) 8 := by
        intro i hi j hj; rw [padd_padd (padd b r)]; exact hon1 i hi (24 + j) (by omega)
      have e1 := (lift 8 b _ db0).trans c1
      have e2 := (lift 8 (padd b 16) _ db16).trans c2
      have e3 := (lift 8 (padd b r) _ dn0).trans c3
      have e4 := (lift 4 (padd (padd b r) 8) _ dn8).trans c4
      have e5 := (lift 8 (padd (padd b r) 24) _ dn24).trans c5
      have e6 := (lift 8 (padd (padd b r) 16) _ dn16).trans c6
      have e7 := (lift 4 (padd b 8) _ db8).trans c7
      have e8 := (lift 8 (padd b 24) _ db24).trans c8
      refine ⟨e1, e2, e3, hmin, e4, e5, e6, ?_, ?_, e7, e8, ?_⟩
      · intro _
        unfold get_prev set_prev
        rw [rdN_wrN_same _ _ _ _ hW, h256]
        have := padd_lt b r
        rw [WORD_eq] at this
        exact Nat.mod_eq_of_lt this
      · have x1 : get_size _ b = r := e1
        have x3 : get_size _ (padd b r) = get_size m b - r := e3
        rw [x1, x3]
        simp only [MIN_BLOCK_SIZE, HEADER_SIZE] at he
        omega
      · intro a h0 h16 hn hop
        have hop1 := hop ho
        have : rd8 (set_prev (set_next (set_size (set_prev (set_next (set_is_free
            (set_size m (padd b r) (wsub (get_size m b) r)) (padd b r) 1)
            (padd b r) (get_next m b)) (padd b r) b) b r) b (padd b r))
            (get_next m b) (padd b r)) a
            = rd8 (set_next (set_size (set_prev (set_next (set_is_free
            (set_size m (padd b r) (wsub (get_size m b) r)) (padd b r) 1)
            (padd b r) (get_next m b)) (padd b r) b) b r) b (padd b r)) a := by
          exact rd8_wrN_of_ne 8 _ (padd (get_next m b) 24) (padd b r) a
            (fun i hi => by rw [padd_padd]; exact hop1 i hi)
        rw [this]
        exact hframe a h0 h16 hn
    · rw [if_neg ho]
      refine ⟨c1, c2, c3, hmin, c4, c5, c6, fun h => absurd h ho, ?_, c7, c8, ?_⟩
      · rw [c1, c3]
        simp only [MIN_BLOCK_SIZE, HEADER_SIZE] at he
        omega
      · intro a h0 h16 hn _
        exact hframe a h0 h16 hn

/-- C17 (amended) at a concrete block: extent 1000 at `65536` with
`next = 70000`, split at `r = 136`. -/
theorem C17_split_block_postcondition_witness :
    get_size (split_block linked_block 65536 136) 65536 = 136 ∧
    get_next (split_block linked_block 65536 136) 65536 = padd 65536 136 ∧
    get_size (split_block linked_block 65536 136) (padd 65536 136)
      = get_size linked_block 65536 - 136 ∧
    get_is_free (split_block linked_block 65536 136) (padd 65536 136) = 1 ∧
    get_prev (split_block linked_block 65536 136) (padd 65536 136) = 65536 ∧
    get_next (split_block linked_block 65536 136) (padd 65536 136)
      = get_next linked_block 65536 ∧
    get_prev (split_block linked_block 65536 136) (get_next linked_block 65536)
      = padd 65536 136 ∧
    get_next linked_block 65536 = 70000 ∧ get_size linked_block 65536 = 1000 ∧
    padd 65536 136 = 65672 := by
  have h := (C17_split_block_postcondition linked_block 65536 136 (by decide) (by decide)
    (by decide)
    (fun _ => by
      have e : get_next linked_block 65536 = 70000 := by decide
      rw [e]; intro i hi j hj; simp only [padd, WORD_eq]; omega)
    (fun _ => by
      have e : get_next linked_block 65536 = 70000 := by decide
      rw [e]; intro i hi j hj; simp only [padd, WORD_eq]; omega)).2 (by decide)
  obtain ⟨h1, h2, h3, _, h5, h6, h7, h8, _⟩ := h
  exact ⟨h1, h2, h3, h5, h6, h7, h8 (by decide), by decide, by decide, by decide⟩

/-! ## `free` on a block outside the chain -/

theorem merge_blocks_eq (m : Mem) (block : Nat) :
    merge_blocks m block =
      if get_prev (merge_forward m block) block ≠ NULL ∧
          get_is_free (merge_forward m block) (get_prev (merge_forward m block) block) ≠ 0 then
        (let m1 := set_size (merge_forward m block) (get_prev (merge_forward m block) block)
          ((get_size (merge_forward m block) (get_prev (merge_forward m block) block)
            + get_size (merge_forward m block) block) % WORD)
        let m2 := set_next m1 (get_prev m1 block) (get_next m1 block)
        if get_next m2 block ≠ NULL then set_prev m2 (get_next m2 block) (get_prev m2 block)
        else m2)
      else merge_forward m block := by
  rfl

theorem merge_blocks_of_not_backward (m : Mem) (block : Nat)
    (h : ¬ merge_backward_taken (merge_forward m block) block) :
    merge_blocks m block = merge_forward m block := by
  rw [merge_blocks_eq]
  exact if_neg h

theorem free_eq (s : State) (ptr : Nat) (hp : ptr ≠ NULL)
    (hinit : s.malloc_state.initialized ≠ 0)
    (hlo : s.malloc_state.heap_start ≤ wsub ptr HEADER_SIZE)
    (hhi : wsub ptr HEADER_SIZE < padd s.malloc_state.heap_start s.malloc_state.heap_size) :
    free s ptr = { free_linked s (wsub ptr HEADER_SIZE) with
      mem := merge_blocks (free_linked s (wsub ptr HEADER_SIZE)).mem (wsub ptr HEADER_SIZE) } := by
  have hr : ¬ (wsub ptr HEADER_SIZE < s.malloc_state.heap_start ∨
      wsub ptr HEADER_SIZE ≥ padd s.malloc_state.heap_start s.malloc_state.heap_size) := by
    omega
  unfold free free_linked
  simp only [if_neg hp, if_neg hinit, if_neg hr]

/-- Merging forward: when `block->next` is a free block `h` whose header does not
overlap the header of `block`, and the `prev` field of `h->next` (when non-null)
does not overlap it either, the first statement of `merge_blocks` adds the
extent of `h` to the extent of `block` and leaves `block->prev` and
`block->is_free` alone. -/
theorem merge_forward_effect (m : Mem) (b : Nat)
    (hne : get_next m b ≠ NULL) (hfree : get_is_free m (get_next m b) ≠ 0)
    (hsep : disjoint_bytes (get_next m b) 32 b 32)
    (hsep2 : get_next m (get_next m b) ≠ NULL →
      disjoint_bytes (padd (get_next m (get_next m b)) 24) 8 b 32) :
    get_prev (merge_forward m b) b = get_prev m b ∧
    get_is_free (merge_forward m b) b = get_is_free m b ∧
    get_size (merge_forward m b) b = (get_size m b + get_size m (get_next m b)) % WORD := by
  have hW : (8 : Nat) ≤ WORD := by rw [WORD_eq]; omega
  have h256 : (256 : Nat) ^ 8 = WORD := by norm_num [WORD]
  -- reads inside the branch
  have r1 : get_next (set_size m b ((get_size m b + get_size m (get_next m b)) % WORD)) b
      = get_next m b := by
    unfold get_next set_size
    rw [rdN_wrN_of_disjoint]
    intro i hi j hj
    simp only [padd, WORD_eq]
    omega
  have r2 : get_next (set_size m b ((get_size m b + get_size m (get_next m b)) % WORD))
      (get_next m b) = get_next m (get_next m b) := by
    unfold set_size
    conv => lhs; unfold get_next
    conv => rhs; unfold get_next
    rw [rdN_wrN_of_disjoint]
    intro i hi j hj
    rw [padd_padd (rdN 8 m (padd b 16))]
    exact fun e => hsep (16 + j) (by omega) i (by omega) e.symm
  have r3 : get_next (set_next (set_size m b ((get_size m b + get_size m (get_next m b)) % WORD))
      b (get_next m (get_next m b))) b = get_next m (get_next m b) := by
    unfold get_next set_next
    rw [rdN_wrN_same _ _ _ _ hW, h256]
    exact Nat.mod_eq_of_lt (by rw [← h256]; exact rdN_lt 8 _ _)
  have hform : merge_forward m b =
      (if get_next m (get_next m b) ≠ NULL then
        set_prev (set_next (set_size m b ((get_size m b + get_size m (get_next m b)) % WORD))
          b (get_next m (get_next m b))) (get_next m (get_next m b)) b
      else
        set_next (set_size m b ((get_size m b + get_size m (get_next m b)) % WORD))
          b (get_next m (get_next m b))) := by
    unfold merge_forward
    rw [if_pos ⟨hne, hfree⟩]
    simp only [r1, r2, r3]
  -- reads of the fields of `b` after the two writes to `b`
  have c1 : get_prev (set_next (set_size m b ((get_size m b + get_size m (get_next m b)) % WORD))
      b (get_next m (get_next m b))) b = get_prev m b := by
    unfold get_prev set_next set_size
    rw [rdN_wrN_of_disjoint, rdN_wrN_of_disjoint]
    all_goals
      intro i hi j hj
      simp only [padd, WORD_eq]
      omega
  have c2 : get_is_free (set_next (set_size m b
      ((get_size m b + get_size m (get_next m b)) % WORD))
      b (get_next m (get_next m b))) b = get_is_free m b := by
    unfold get_is_free set_next set_size
    rw [rdN_wrN_of_disjoint, rdN_wrN_of_disjoint]
    all_goals
      intro i hi j hj
      simp only [padd, WORD_eq]
      omega
  have c3 : get_size (set_next (set_size m b ((get_size m b + get_size m (get_next m b)) % WORD))
      b (get_next m (get_next m b))) b
      = (get_size m b + get_size m (get_next m b)) % WORD := by
    unfold set_next set_size
    conv => lhs; unfold get_size
    rw [rdN_wrN_of_disjoint, rdN_wrN_same _ _ _ _ hW, h256]
    · exact Nat.mod_mod _ _
    · intro i hi j hj
      simp only [padd, WORD_eq]
      omega
  rw [hform]
  by_cases hn : get_next m (get_next m b) ≠ NULL
  · have hs2 := hsep2 hn
    rw [if_pos hn]
    have lift : ∀ (w x : Nat) (M : Mem),
        disjoint_bytes (padd (get_next m (get_next m b)) 24) 8 x w →
        rdN w (set_prev M (get_next m (get_next m b)) b) x = rdN w M x := by
      intro w x M h
      unfold set_prev
      exact rdN_wrN_of_disjoint 8 w M _ _ x h
    have d0 : disjoint_bytes (padd (get_next m (get_next m b)) 24) 8 b 8 :=
      fun i hi j hj => hs2 i hi j (by omega)
    have d8 : disjoint_bytes (padd (get_next m (get_next m b)) 24) 8 (padd b 8) 4 := by
      intro i hi j hj; rw [padd_padd b]; exact hs2 i hi (8 + j) (by omega)
    have d24 : disjoint_bytes (padd (get_next m (get_next m b)) 24) 8 (padd b 24) 8 := by
      intro i hi j hj; rw [padd_padd b]; exact hs2 i hi (24 + j) (by omega)
    exact ⟨(lift 8 (padd b 24) _ d24).trans c1, (lift 4 (padd b 8) _ d8).trans c2,
      (lift 8 b _ d0).trans c3⟩
  · rw [if_neg hn]
    exact ⟨c1, c2, c3⟩

/-- When `block->next` is null or not free the first statement of
`merge_blocks` does nothing. -/
theorem merge_forward_skip (m : Mem) (b : Nat)
    (h : ¬ (get_next m b ≠ NULL ∧ get_is_free m (get_next m b) ≠ 0)) :
    merge_forward m b = m := by
  unfold merge_forward
  rw [if_neg h]

/-- What `block->is_free = 1` and `add_to_free_list(block)` leave behind when
the header of the old head `h` (if there is one) does not overlap the header
of `block`. -/
theorem free_linked_effect (s : State) (b : Nat)
    (hh : s.malloc_state.free_list < WORD)
    (hsep : s.malloc_state.free_list ≠ NULL →
      disjoint_bytes s.malloc_state.free_list 32 b 32) :
    (free_linked s b).malloc_state = { s.malloc_state with free_list := b } ∧
    (free_linked s b).region = s.region ∧
    get_next (free_linked s b).mem b = s.malloc_state.free_list ∧
    get_prev (free_linked s b).mem b = NULL ∧
    get_is_free (free_linked s b).mem b = 1 ∧
    get_size (free_linked s b).mem b = get_size s.mem b ∧
    (s.malloc_state.free_list ≠ NULL →
      get_is_free (free_linked s b).mem s.malloc_state.free_list
        = get_is_free s.mem s.malloc_state.free_list ∧
      get_size (free_linked s b).mem s.malloc_state.free_list
        = get_size s.mem s.malloc_state.free_list ∧
      get_next (free_linked s b).mem s.malloc_state.free_list
        = get_next s.mem s.malloc_state.free_list) := by
  have hW : (8 : Nat) ≤ WORD := by rw [WORD_eq]; omega
  have hW4 : (4 : Nat) ≤ WORD := by rw [WORD_eq]; omega
  have h256 : (256 : Nat) ^ 8 = WORD := by norm_num [WORD]
  -- the three writes to the header of `b`
  have b1 : get_next (set_prev (set_next (set_is_free s.mem b 1) b s.malloc_state.free_list)
      b NULL) b = s.malloc_state.free_list := by
    unfold get_next set_prev set_next set_is_free
    rw [rdN_wrN_of_disjoint, rdN_wrN_same _ _ _ _ hW, h256]
    · exact Nat.mod_eq_of_lt hh
    · intro i hi j hj
      simp only [padd, WORD_eq]
      omega
  have b2 : get_prev (set_prev (set_next (set_is_free s.mem b 1) b s.malloc_state.free_list)
      b NULL) b = NULL := by
    unfold get_prev set_prev set_next set_is_free
    rw [rdN_wrN_same _ _ _ _ hW]
    simp [NULL]
  have b3 : get_is_free (set_prev (set_next (set_is_free s.mem b 1) b s.malloc_state.free_list)
      b NULL) b = 1 := by
    unfold get_is_free set_prev set_next set_is_free
    rw [rdN_wrN_of_disjoint, rdN_wrN_of_disjoint, rdN_wrN_same _ _ _ _ hW4]
    · norm_num
    all_goals
      intro i hi j hj
      simp only [padd, WORD_eq]
      omega
  have b4 : get_size (set_prev (set_next (set_is_free s.mem b 1) b s.malloc_state.free_list)
      b NULL) b = get_size s.mem b := by
    unfold get_size set_prev set_next set_is_free
    rw [rdN_wrN_of_disjoint, rdN_wrN_of_disjoint, rdN_wrN_of_disjoint]
    all_goals
      intro i hi j hj
      simp only [padd, WORD_eq]
      omega
  by_cases hn : s.malloc_state.free_list ≠ NULL
  · have hs := hsep hn
    have hmem : (free_linked s b).mem =
        set_prev (set_prev (set_next (set_is_free s.mem b 1) b s.malloc_state.free_list)
          b NULL) s.malloc_state.free_list b := by
      simp [free_linked, add_to_free_list, hn]
    have lift : ∀ (w x : Nat) (M : Mem),
        disjoint_bytes (padd s.malloc_state.free_list 24) 8 x w →
        rdN w (set_prev M s.malloc_state.free_list b) x = rdN w M x := by
      intro w x M h
      unfold set_prev
      exact rdN_wrN_of_disjoint 8 w M _ _ x h
    have d0 : disjoint_bytes (padd s.malloc_state.free_list 24) 8 b 8 := by
      intro i hi j hj; rw [padd_padd]; exact hs (24 + i) (by omega) j (by omega)
    have d8 : disjoint_bytes (padd s.malloc_state.free_list 24) 8 (padd b 8) 4 := by
      intro i hi j hj; rw [padd_padd, padd_padd]; exact hs (24 + i) (by omega) (8 + j) (by omega)
    have d16 : disjoint_bytes (padd s.malloc_state.free_list 24) 8 (padd b 16) 8 := by
      intro i hi j hj; rw [padd_padd, padd_padd]
      exact hs (24 + i) (by omega) (16 + j) (by omega)
    have d24 : disjoint_bytes (padd s.malloc_state.free_list 24) 8 (padd b 24) 8 := by
      intro i hi j hj; rw [padd_padd, padd_padd]
      exact hs (24 + i) (by omega) (24 + j) (by omega)
    -- fields of `h` seen through the writes to `b` and to `h->prev`
    have wb : ∀ (w off : Nat), off + w ≤ 24 → ∀ (k o2 v : Nat) (M : Mem), o2 + k ≤ 32 →
        rdN w (wrN k M (padd b o2) v) (padd s.malloc_state.free_list off)
          = rdN w M (padd s.malloc_state.free_list off) := by
      intro w off hoff k o2 v M ho2
      apply rdN_wrN_of_disjoint
      intro i hi j hj
      rw [padd_padd, padd_padd]
      exact fun e => hs (off + j) (by omega) (o2 + i) (by omega) e.symm
    have wh : ∀ (w off : Nat), off + w ≤ 24 → ∀ (v : Nat) (M : Mem),
        rdN w (wrN 8 M (padd s.malloc_state.free_list 24) v)
            (padd s.malloc_state.free_list off)
          = rdN w M (padd s.malloc_state.free_list off) := by
      intro w off hoff v M
      apply rdN_wrN_of_disjoint
      intro i hi j hj
      simp only [padd, WORD_eq]
      omega
    have hfield : ∀ (w off : Nat), off + w ≤ 24 →
        rdN w (free_linked s b).mem (padd s.malloc_state.free_list off)
          = rdN w s.mem (padd s.malloc_state.free_list off) := by
      intro w off hoff
      rw [hmem]
      unfold set_prev set_next set_is_free
      rw [wh w off hoff, wb w off hoff 8 24 _ _ (by omega), wb w off hoff 8 16 _ _ (by omega),
        wb w off hoff 4 8 _ _ (by omega)]
    have rawsize : ∀ (M : Mem), get_size M s.malloc_state.free_list
        = rdN 8 M (padd s.malloc_state.free_list 0) := by
      intro M
      unfold get_size
      have e : ∀ n, rdN n M (padd s.malloc_state.free_list 0)
          = rdN n M s.malloc_state.free_list := by
        intro n
        induction n with
        | zero => rfl
        | succ n ih => unfold rdN; rw [ih, padd_padd, Nat.zero_add]
      exact (e 8).symm
    refine ⟨by simp [free_linked, add_to_free_list], by simp [free_linked, add_to_free_list],
      ?_, ?_, ?_, ?_, ?_⟩
    · rw [hmem]; exact (lift 8 (padd b 16) _ d16).trans b1
    · rw [hmem]; exact (lift 8 (padd b 24) _ d24).trans b2
    · rw [hmem]; exact (lift 4 (padd b 8) _ d8).trans b3
    · rw [hmem]; exact (lift 8 b _ d0).trans b4
    · intro _
      refine ⟨hfield 4 8 (by omega), ?_, hfield 8 16 (by omega)⟩
      rw [rawsize, rawsize]
      exact hfield 8 0 (by omega)
  · have hmem : (free_linked s b).mem =
        set_prev (set_next (set_is_free s.mem b 1) b s.malloc_state.free_list) b NULL := by
      simp [free_linked, add_to_free_list, hn]
    refine ⟨by simp [free_linked, add_to_free_list], by simp [free_linked, add_to_free_list],
      ?_, ?_, ?_, ?_, fun h => absurd h hn⟩
    · rw [hmem]; exact b1
    · rw [hmem]; exact b2
    · rw [hmem]; exact b3
    · rw [hmem]; exact b4

/-- C20 as stated fails in a reachable state with overlapping headers.  After
`malloc(16)`, `p2 = malloc(8)`, `free(p1)`, `malloc(8)` the chain is the single
free block at offset 40, whose header overlaps the header of the live block of
`p2` at offset 48 (extent field clobbered to 1).  The block of `p2` is not in
the chain and `p2` is in range, yet in `free(p2)` the write
`free_list->prev = block` lands on `block->next`, the forward merge then sets
`block->prev` to the block itself, and the backward branch of `merge_blocks`
is executed: afterwards `block->prev` is not null and the extent is 4, not
`1 + 1048496`. -/
theorem C20_backward_merge_runs :
    ∃ c, run 4 (fresh 65536) [.malloc 16, .malloc 8, .free 65568, .malloc 8] = some c ∧
      c.live = [65568, 65616] ∧ c.s.malloc_state.initialized = 1 ∧
      wsub 65616 HEADER_SIZE = 65584 ∧
      IsChain c.s.mem c.s.malloc_state.free_list [65576] ∧
      get_is_free c.s.mem 65576 = 1 ∧ get_size c.s.mem 65576 = 1048496 ∧
      get_size c.s.mem 65584 = 1 ∧
      merge_backward_taken (merge_forward (free_linked c.s 65584).mem 65584) 65584 ∧
      get_prev (free c.s 65616).mem 65584 = 65584 ∧
      get_size (free c.s 65616).mem 65584 = 4 := by
  have h : (run 4 (fresh 65536) [.malloc 16, .malloc 8, .free 65568, .malloc 8]).map
      (fun c => (c.live, c.s.malloc_state.initialized,
        decide (IsChain c.s.mem c.s.malloc_state.free_list [65576]),
        get_is_free c.s.mem 65576, get_size c.s.mem 65576))
      = some ([65568, 65616], 1, true, 1, 1048496) := by decide!
  have h' : (run 4 (fresh 65536) [.malloc 16, .malloc 8, .free 65568, .malloc 8]).map
      (fun c => (get_size c.s.mem 65584,
        decide (merge_backward_taken (merge_forward (free_linked c.s 65584).mem 65584) 65584),
        get_prev (free c.s 65616).mem 65584, get_size (free c.s 65616).mem 65584))
      = some (1, true, 65584, 4) := by decide!
  obtain ⟨c, hc, hv⟩ := of_map_eq_some h
  obtain ⟨h1, hv⟩ := Prod.mk.inj hv
  obtain ⟨h2, hv⟩ := Prod.mk.inj hv
  obtain ⟨h3, hv⟩ := Prod.mk.inj hv
  obtain ⟨h4, h5⟩ := Prod.mk.inj hv
  rw [hc] at h'
  obtain ⟨h6, hw⟩ := Prod.mk.inj (Option.some.inj h')
  obtain ⟨h7, hw⟩ := Prod.mk.inj hw
  obtain ⟨h8, h9⟩ := Prod.mk.inj hw
  exact ⟨c, hc, h1, h2, by decide, of_decide_eq_true h3, h4, h5, h6, of_decide_eq_true h7,
    h8, h9⟩

/-- C20, amended: on an initialised allocator, for an in-range pointer whose
block `b` has a header that overlaps neither the header of the old head of the
chain (when there is one) nor the `prev` field of the successor of a free old
head (when there is one), `free` does not take the backward branch of
`merge_blocks`; afterwards the head of the chain is `b`, `b->prev` is null,
`b->is_free` is 1, and the extent of `b` is its old extent plus (in `size_t`
arithmetic) the extent of the old head when that existed and was free, and
its old extent otherwise. -/
theorem C20_free_outside_chain (s : State) (ptr : Nat)
    (hinit : s.malloc_state.initialized ≠ 0) (hp : ptr ≠ NULL)
    (hlo : s.malloc_state.heap_start ≤ wsub ptr HEADER_SIZE)
    (hhi : wsub ptr HEADER_SIZE < padd s.malloc_state.heap_start s.malloc_state.heap_size)
    (hh : s.malloc_state.free_list < WORD)
    (hsep : s.malloc_state.free_list ≠ NULL →
      disjoint_bytes s.malloc_state.free_list 32 (wsub ptr HEADER_SIZE) 32)
    (hsep2 : s.malloc_state.free_list ≠ NULL →
      get_is_free s.mem s.malloc_state.free_list ≠ 0 →
      get_next s.mem s.malloc_state.free_list ≠ NULL →
      disjoint_bytes (padd (get_next s.mem s.malloc_state.free_list) 24) 8
        (wsub ptr HEADER_SIZE) 32) :
    ¬ merge_backward_taken
        (merge_forward (free_linked s (wsub ptr HEADER_SIZE)).mem (wsub ptr HEADER_SIZE))
        (wsub ptr HEADER_SIZE) ∧
    (free s ptr).malloc_state = { s.malloc_state with free_list := wsub ptr HEADER_SIZE } ∧
    get_prev (free s ptr).mem (wsub ptr HEADER_SIZE) = NULL ∧
    get_is_free (free s ptr).mem (wsub ptr HEADER_SIZE) = 1 ∧
    get_size (free s ptr).mem (wsub ptr HEADER_SIZE) =
      (if s.malloc_state.free_list ≠ NULL ∧ get_is_free s.mem s.malloc_state.free_list ≠ 0 then
        (get_size s.mem (wsub ptr HEADER_SIZE) + get_size s.mem s.malloc_state.free_list) % WORD
      else get_size s.mem (wsub ptr HEADER_SIZE)) := by
  obtain ⟨a1, _, a3, a4, a5, a6, a7⟩ := free_linked_effect s (wsub ptr HEADER_SIZE) hh hsep
  have core : get_prev (merge_forward (free_linked s (wsub ptr HEADER_SIZE)).mem
        (wsub ptr HEADER_SIZE)) (wsub ptr HEADER_SIZE) = NULL ∧
      get_is_free (merge_forward (free_linked s (wsub ptr HEADER_SIZE)).mem
        (wsub ptr HEADER_SIZE)) (wsub ptr HEADER_SIZE) = 1 ∧
      get_size (merge_forward (free_linked s (wsub ptr HEADER_SIZE)).mem
        (wsub ptr HEADER_SIZE)) (wsub ptr HEADER_SIZE) =
        (if s.malloc_state.free_list ≠ NULL ∧
            get_is_free s.mem s.malloc_state.free_list ≠ 0 then
          (get_size s.mem (wsub ptr HEADER_SIZE)
            + get_size s.mem s.malloc_state.free_list) % WORD
        else get_size s.mem (wsub ptr HEADER_SIZE)) := by
    by_cases hc : s.malloc_state.free_list ≠ NULL ∧
        get_is_free s.mem s.malloc_state.free_list ≠ 0
    · obtain ⟨hn, hf⟩ := hc
      obtain ⟨g1, g2, g3⟩ := a7 hn
      have e := merge_forward_effect (free_linked s (wsub ptr HEADER_SIZE)).mem
        (wsub ptr HEADER_SIZE)
        (by rw [a3]; exact hn)
        (by rw [a3, g1]; exact hf)
        (by rw [a3]; exact hsep hn)
        (by rw [a3, g3]; exact hsep2 hn hf)
      obtain ⟨e1, e2, e3⟩ := e
      rw [if_pos ⟨hn, hf⟩]
      refine ⟨e1.trans a4, e2.trans a5, ?_⟩
      rw [e3, a3, a6, g2]
    · have hskip : ¬ (get_next (free_linked s (wsub ptr HEADER_SIZE)).mem
            (wsub ptr HEADER_SIZE) ≠ NULL ∧
          get_is_free (free_linked s (wsub ptr HEADER_SIZE)).mem
            (get_next (free_linked s (wsub ptr HEADER_SIZE)).mem
              (wsub ptr HEADER_SIZE)) ≠ 0) := by
        rw [a3]
        intro hx
        exact hc ⟨hx.1, by rw [← (a7 hx.1).1]; exact hx.2⟩
      rw [merge_forward_skip _ _ hskip, if_neg hc]
      exact ⟨a4, a5, a6⟩
  obtain ⟨k1, k2, k3⟩ := core
  have hnb : ¬ merge_backward_taken
      (merge_forward (free_linked s (wsub ptr HEADER_SIZE)).mem (wsub ptr HEADER_SIZE))
      (wsub ptr HEADER_SIZE) := fun hx => hx.1 k1
  have hfree := free_eq s ptr hp hinit hlo hhi
  rw [merge_blocks_of_not_backward _ _ hnb] at hfree
  rw [hfree]
  exact ⟨hnb, a1, k1, k2, k3⟩

/-- C20 (amended) at a concrete state: the chain starts with a free block of
extent 100 whose `next` is non-null; releasing the block of extent 136 at the
start of the arena makes it the head with extent 236. -/
theorem C20_free_outside_chain_witness :
    ¬ merge_backward_taken (merge_forward (free_linked chain_and_block 65536).mem 65536) 65536 ∧
    (free chain_and_block 65568).malloc_state.free_list = 65536 ∧
    get_prev (free chain_and_block 65568).mem 65536 = NULL ∧
    get_is_free (free chain_and_block 65568).mem 65536 = 1 ∧
    get_size (free chain_and_block 65568).mem 65536 = 236 := by
  have hb : wsub 65568 HEADER_SIZE = 65536 := by decide
  have h := C20_free_outside_chain chain_and_block 65568 (by decide) (by decide)
    (by decide) (by decide) (by decide)
    (fun _ => by
      rw [hb]
      show disjoint_bytes 70000 32 65536 32
      intro i hi j hj; simp only [padd, WORD_eq]; omega)
    (fun _ _ _ => by
      have e : get_next chain_and_block.mem chain_and_block.malloc_state.free_list = 80000 := by
        decide
      rw [hb, e]
      intro i hi j hj; simp only [padd, WORD_eq]; omega)
  rw [hb] at h
  obtain ⟨h1, h2, h3, h4, h5⟩ := h
  refine ⟨h1, ?_, h3, h4, h5.trans (by decide)⟩
  rw [h2]

/-! ## The misalignment scenario, step by step -/

theorem skew_start : ∀ region ∈ skew_regions, fresh region = skew_00 region := by decide!

theorem skew_step_00 : ∀ region ∈ skew_regions,
    (skew_00 region).step 20 (.malloc 32) = some (skew_01 region) := by decide!

theorem skew_step_01 : ∀ region ∈ skew_regions,
    (skew_01 region).step 20 (.malloc 8) = some (skew_02 region) := by decide!

theorem skew_step_02 : ∀ region ∈ skew_regions,
    (skew_02 region).step 20 (.malloc 64) = some (skew_03 region) := by decide!

theorem skew_step_03 : ∀ region ∈ skew_regions,
    (skew_03 region).step 20 (.free (region + 32)) = some (skew_04 region) := by decide!

theorem skew_step_04 : ∀ region ∈ skew_regions,
    (skew_04 region).step 20 (.malloc 64) = some (skew_05 region) := by decide!

theorem skew_step_05 : ∀ region ∈ skew_regions,
    (skew_05 region).step 20 (.free (region + 32)) = some (skew_06 region) := by decide!

theorem skew_step_06 : ∀ region ∈ skew_regions,
    (skew_06 region).step 20 (.malloc 88) = some (skew_07 region) := by decide!

theorem skew_step_07 : ∀ region ∈ skew_regions,
    (skew_07 region).step 20 (.free (region + 136)) = some (skew_08 region) := by decide!

theorem skew_step_08 : ∀ region ∈ skew_regions,
    (skew_08 region).step 20 (.free (region + 32)) = some (skew_09 region) := by decide!

theorem skew_step_09 : ∀ region ∈ skew_regions,
    (skew_09 region).step 20 (.malloc 16) = some (skew_10 region) := by decide!

theorem skew_step_10 : ∀ region ∈ skew_regions,
    (skew_10 region).step 20 (.free (region + 96)) = some (skew_11 region) := by decide!

theorem skew_step_12 : ∀ region ∈ skew_regions,
    (skew_12 region).step 20 (.free (region + 225)) = some (skew_13 region) := by decide!

theorem skew_giant : ∀ region ∈ skew_regions,
    find_free_block 20 (skew_11 region).s (request_size 4035225266123964384)
      = some (region + 193) ∧
    malloc 20 (skew_11 region).s 4035225266123964384
      = some (some (region + 225), (skew_12 region).s) := by decide!

theorem skew_last : ∀ region ∈ skew_regions,
    find_free_block 20 (skew_13 region).s (request_size 8) = some (region + 193) ∧
    split_block (skew_13 region).s.mem (region + 193) (request_size 8)
      ≠ (skew_13 region).s.mem ∧
    padd (region + 193) (request_size 8) = region + 233 ∧
    malloc 20 (skew_13 region).s 8 = some (some (region + 225), (skew_14 region).s) ∧
    get_is_free (skew_14 region).s.mem (region + 233) = 1 ∧
    wsub (region + 225) region % 8 = 1 ∧
    wsub (region + 233) region % 8 = 1 := by decide!

theorem request_size_mod_eight (size : Nat) : request_size size % 8 = 0 := by
  have key : ∀ x, (x &&& (WORD - 8)) % 8 = 0 := by
    intro x
    have h := (Nat.and_pow_two_sub_one_eq_mod (x &&& (WORD - 8)) 3).symm
    rw [Nat.and_assoc, show (WORD - 8) &&& (2 ^ 3 - 1) = 0 by decide, Nat.and_zero] at h
    exact h
  exact key _

/-- C19 (code defect): the same fourteen calls, with every `free` on a live
pointer and no size computation wrapping, misalign the allocator wherever
the arena lies (checked at each address `region` of `skew_regions`).  After
eleven calls the chain is `region + 64`, then the misaligned address
`region + 193`; `malloc(4035225266123964384)` searches to `region + 193` and
returns `region + 225`, at offset `225 = 8 * 28 + 1` from the arena start.
After `free(region + 225)`, `malloc(8)` again takes the block at
`region + 193`, `split_block` creates a header at `region + 233`, offset
`233 = 8 * 29 + 1`, which becomes the chain head, and `region + 225` is
returned once more.  Every split offset `request_size size` is a multiple
of `8`. -/
theorem C19_misaligned_block_returned (region : Nat) (h : region ∈ skew_regions) :
    ∃ c s1 c1 s2,
      run 20 (fresh region) [.malloc 32, .malloc 8, .malloc 64, .free (region + 32),
        .malloc 64, .free (region + 32), .malloc 88, .free (region + 136),
        .free (region + 32), .malloc 16, .free (region + 96)] = some c ∧
      c.live = [region + 32] ∧
      c.s.malloc_state.heap_start = region ∧
      c.s.malloc_state.free_list = region + 64 ∧
      get_next c.s.mem (region + 64) = region + 193 ∧
      request_size 4035225266123964384 = 4035225266123964384 + HEADER_SIZE ∧
      find_free_block 20 c.s (request_size 4035225266123964384) = some (region + 193) ∧
      malloc 20 c.s 4035225266123964384 = some (some (region + 225), s1) ∧
      run 20 ⟨s1, [region + 225, region + 32]⟩ [.free (region + 225)] = some c1 ∧
      find_free_block 20 c1.s (request_size 8) = some (region + 193) ∧
      split_block c1.s.mem (region + 193) (request_size 8) ≠ c1.s.mem ∧
      padd (region + 193) (request_size 8) = region + 233 ∧
      malloc 20 c1.s 8 = some (some (region + 225), s2) ∧
      get_is_free s2.mem (region + 233) = 1 ∧
      s2.malloc_state.free_list = region + 233 ∧
      wsub (region + 225) region % 8 = 1 ∧
      wsub (region + 233) region % 8 = 1 ∧
      ∀ size, request_size size % 8 = 0 := by
  obtain ⟨g1, g2⟩ := skew_giant region h
  obtain ⟨l1, l2, l3, l4, l5, l6, l7⟩ := skew_last region h
  have hn : ∀ region ∈ skew_regions,
      get_next (skew_11 region).s.mem (region + 64) = region + 193 := by decide!
  refine ⟨skew_11 region, (skew_12 region).s, skew_13 region, (skew_14 region).s,
    ?_, rfl, rfl, rfl, hn region h, by decide, g1, g2, ?_, l1, l2, l3, l4, l5, rfl, l6, l7,
    request_size_mod_eight⟩
  · rw [skew_start region h, run_cons_of_step _ (skew_step_00 region h),
      run_cons_of_step _ (skew_step_01 region h), run_cons_of_step _ (skew_step_02 region h),
      run_cons_of_step _ (skew_step_03 region h), run_cons_of_step _ (skew_step_04 region h),
      run_cons_of_step _ (skew_step_05 region h), run_cons_of_step _ (skew_step_06 region h),
      run_cons_of_step _ (skew_step_07 region h), run_cons_of_step _ (skew_step_08 region h),
      run_cons_of_step _ (skew_step_09 region h), run_cons_of_step _ (skew_step_10 region h)]
    rfl
  · exact (run_cons_of_step _ (skew_step_12 region h)).trans rfl

/-- C19, at the arena address `4214944`. -/
theorem C19_misaligned_block_returned_witness :
    4214944 ∈ skew_regions ∧
    ∃ c s1 c1 s2,
      run 20 (fresh 4214944) [.malloc 32, .malloc 8, .malloc 64, .free (4214944 + 32),
        .malloc 64, .free (4214944 + 32), .malloc 88, .free (4214944 + 136),
        .free (4214944 + 32), .malloc 16, .free (4214944 + 96)] = some c ∧
      c.live = [4214944 + 32] ∧
      c.s.malloc_state.heap_start = 4214944 ∧
      c.s.malloc_state.free_list = 4214944 + 64 ∧
      get_next c.s.mem (4214944 + 64) = 4214944 + 193 ∧
      request_size 4035225266123964384 = 4035225266123964384 + HEADER_SIZE ∧
      find_free_block 20 c.s (request_size 4035225266123964384) = some (4214944 + 193) ∧
      malloc 20 c.s 4035225266123964384 = some (some (4214944 + 225), s1) ∧
      run 20 ⟨s1, [4214944 + 225, 4214944 + 32]⟩ [.free (4214944 + 225)] = some c1 ∧
      find_free_block 20 c1.s (request_size 8) = some (4214944 + 193) ∧
      split_block c1.s.mem (4214944 + 193) (request_size 8) ≠ c1.s.mem ∧
      padd (4214944 + 193) (request_size 8) = 4214944 + 233 ∧
      malloc 20 c1.s 8 = some (some (4214944 + 225), s2) ∧
      get_is_free s2.mem (4214944 + 233) = 1 ∧
      s2.malloc_state.free_list = 4214944 + 233 ∧
      wsub (4214944 + 225) 4214944 % 8 = 1 ∧
      wsub (4214944 + 233) 4214944 % 8 = 1 ∧
      ∀ size, request_size size % 8 = 0 :=
  ⟨by decide, C19_misaligned_block_returned 4214944 (by decide)⟩

end Lab9
